import Mathlib

/-!
Shallow embedding of the jurisprudencia ingestion worker
(`src/worker/worker.py`, `src/main.py`, `src/api/api.py`).

Conventions of the embedding:
* Timestamps (`datetime.utcnow()`) are integers counting seconds; a
  `timedelta(minutes=m)` is `m * 60` seconds and a comparison of
  `total_seconds()/86400.0` against an integer number of days `n` is the
  exact equivalent comparison of seconds against `n * 86400`.
* A Mongo collection is a `List` of documents in natural order;
  `find_one`/`update_one` act on the first matching document,
  `update_many` on all, and `find_one_and_update` with a sort picks the
  document minimal in the sort order (first in natural order among ties).
* Values read from BSON fields that may be absent are `Option`s; a field
  that may hold a non-`datetime` value is modelled by `BVal`, whose
  represented values are all truthy in Python, so Python's `or` between
  two such reads is `Option`'s first-`some` choice.
-/

namespace Juris

/-- Seconds since the epoch; the embedding of `datetime.utcnow()` values. -/
abbrev Time := Int

/-- A BSON value found in the `creado_en` / `creadoen` fields: either a real
datetime or some other (truthy) non-datetime value. -/
inductive BVal where
  | dt (t : Time)
  | other
deriving DecidableEq, Repr

/-- An embedding vector returned by the embedding service. -/
abbrev Vec := List Int

/-- One element of a `materias` list in the upstream JSON: a string or an
object carrying optional `descripcion` / `clave` keys. -/
inductive MatItem where
  | s (x : String)
  | d (descripcion : Option String) (clave : Option String)
deriving DecidableEq, Repr

/-- The JSON shape of the subject (`materias` / `materia`) field. -/
inductive Materia where
  | str (s : String)
  | lista (xs : List MatItem)
  | obj (descripcion : Option String) (clave : Option String)
  | otro
deriving DecidableEq, Repr

/-- The result of Python's `int(x)` on the raw `anio` value: a number, or a
value on which the conversion raises. -/
inductive IntVal where
  | num (n : Int)
  | malo
deriving DecidableEq, Repr

/-- The parsed JSON body of a 200 response from the thesis endpoint
(the keys read by `procesartesisdoc` and `extraer(materia(data))`). -/
structure TesisData where
  rubro : Option String
  texto : Option String
  anio : Option IntVal
  mes : Option String
  tipoTesis : Option String
  notaPublica : Option String
  localizacion : Option String
  epoca : Option String
  instancia : Option String
  idTesis : Option String
  organoJuris : Option String
  fuente : Option String
  tesis : Option String
  precedentes : Option String
  huellaDigital : Option String
  materias : Option Materia
  materia : Option Materia
deriving DecidableEq, Repr

/-- A queue entry (a document of `cola_tesis` / `cola_tfja`), with the union
of the fields the two source files read or write. -/
structure Entrada where
  id : Nat
  registro : String
  estado : String
  intentos : Nat
  creado_en : Option BVal
  creadoen : Option BVal
  next_run_at : Option Time
  tomadoen : Option Time
  tomado_en : Option Time
  completadoen : Option Time
  completado_en : Option Time
  erroren : Option Time
  error_en : Option Time
  mensajeerror : Option String
  mensaje_error : Option String
  diferido_en : Option Time
  no_disponible_en : Option Time
  liberadoen : Option Time
  reintentado_en : Option Time
  docid : Option String
  rubro : Option String
  texto : Option String
  tipo : Option String
  epoca : Option String
  anio : Option String
  mes : Option String
  sourcefile : Option String
  sourcepath : Option String
deriving DecidableEq, Repr

/-- An `Entrada` with every optional field absent, for building concrete
test documents. -/
def entradaBase : Entrada :=
  { id := 0, registro := "", estado := "", intentos := 0,
    creado_en := none, creadoen := none, next_run_at := none,
    tomadoen := none, tomado_en := none, completadoen := none,
    completado_en := none, erroren := none, error_en := none,
    mensajeerror := none, mensaje_error := none, diferido_en := none,
    no_disponible_en := none, liberadoen := none, reintentado_en := none,
    docid := none, rubro := none, texto := none, tipo := none,
    epoca := none, anio := none, mes := none,
    sourcefile := none, sourcepath := none }

/-- An artifact of the `acervo_historico` collection: the `out` document
written by `procesartesisdoc`. -/
structure Artefacto where
  registro : String
  idTesis : Option String
  rubro : String
  texto : String
  epoca : String
  instancia : String
  organoJuris : Option String
  fuente : String
  tesis : Option String
  tipoTesis : Option String
  anio : Option Int
  mes : Option String
  notaPublica : Option String
  localizacion : Option String
  precedentes : Option String
  huellaDigital : Option String
  materia : String
  vectorbusqueda : Option Vec
  vectorbusqueda_ok : Bool
  procesado : Bool
  actualizadoen : Time
deriving DecidableEq, Repr

/-- An artifact of the `sources_tfja` collection: the `out` document written
by `procesartfjadoc`. -/
structure ArtefactoTfja where
  docid : String
  tipo : String
  epoca : String
  anio : String
  mes : String
  rubro : String
  texto : String
  sourcefile : Option String
  sourcepath : Option String
  vectorbusqueda : Option Vec
  procesado : Bool
  actualizadoen : Time
deriving DecidableEq, Repr

/-- Configuration knobs of `worker.py` read from the environment. -/
structure Config where
  DIFERIDO_MINUTOS : Int
  NO_DISPONIBLE_DIAS : Int
  LOCKSTALEMIN : Int
  MAXERRORESSCJN : Nat
  ESPERAPAUSASCJN : Int
  VECTORRANGO : Bool
  VECTORANIO_MIN : Int
  VECTORANIO_MAX : Int
  VECTOR_ANIO_DESCONOCIDO : Bool
deriving DecidableEq, Repr

/-- The default configuration of `worker.py` (values of the `os.getenv`
defaults). -/
def cfgDefecto : Config :=
  { DIFERIDO_MINUTOS := 60, NO_DISPONIBLE_DIAS := 3, LOCKSTALEMIN := 30,
    MAXERRORESSCJN := 5, ESPERAPAUSASCJN := 1200, VECTORRANGO := false,
    VECTORANIO_MIN := 1980, VECTORANIO_MAX := 2026,
    VECTOR_ANIO_DESCONOCIDO := false }

/-- The retryable upstream statuses (`RETRYSTATUSCODES` in `worker.py`). -/
def RETRYSTATUSCODES : List Nat := [429, 500, 502, 503, 504]

/-! ## Generic collection operations (pymongo semantics on a list) -/

/-- Mongo `find_one`: the first document matching the filter. -/
def findOne {α : Type} (p : α → Bool) : List α → Option α
  | [] => none
  | a :: rest => if p a then some a else findOne p rest

/-- Mongo `update_one`: apply the update to the first matching document. -/
def updateOne {α : Type} (p : α → Bool) (f : α → α) : List α → List α
  | [] => []
  | a :: rest => if p a then f a :: rest else a :: updateOne p f rest

/-- Mongo `update_many`: apply the update to every matching document. -/
def updateMany {α : Type} (p : α → Bool) (f : α → α) (q : List α) : List α :=
  q.map fun a => if p a then f a else a

/-! ## Small Python helpers -/

/-- Python `a or b` for an optional string `a` and a string default `b`
(`None` and the empty string are falsy). -/
def pyOr (a : Option String) (b : String) : String :=
  match a with
  | some s => if s == "" then b else s
  | none => b

/-- Python `f"{x}"` of an optional string (`None` prints as `"None"`). -/
def pyReprStrOpt : Option String → String
  | none => "None"
  | some s => s

/-- Python `f"{x}"` of an optional integer (`None` prints as `"None"`). -/
def pyReprInt : Option Int → String
  | none => "None"
  | some n => toString n

/-- Python truthiness of the value returned by `obtenervector`
(`None` and the empty list are falsy). -/
def pyVecTruthy : Option Vec → Bool
  | none => false
  | some v => !v.isEmpty

/-- Python `s.strip()`: drop leading and trailing whitespace. Implemented
by structural recursion on the character list (the behaviour of
`String.trim`) so that it evaluates inside the kernel. -/
def pyStrip (s : String) : String :=
  ⟨((s.data.dropWhile Char.isWhitespace).reverse.dropWhile
    Char.isWhitespace).reverse⟩

/-- Python `s[:n]`: the first `n` characters of a string, by structural
recursion on the character list so that it evaluates inside the kernel. -/
def pyTake (s : String) (n : Nat) : String := ⟨s.data.take n⟩

/-- Python `(x or "").strip() or None` (`worker.py` lines 403-406). -/
def strOpcional (x : Option String) : Option String :=
  let s := (pyStrip (x.getD ""))
  if s == "" then none else some s

/-- Embedding of `_to_int_or_none` (`worker.py` lines 234-240). -/
def to_int_or_none : Option IntVal → Option Int
  | some (.num n) => some n
  | _ => none

/-- Python `doc.get("creado_en") or doc.get("creadoen")`: the first of the
two creation fields holding a (truthy) value. -/
def creadoCampo (d : Entrada) : Option BVal :=
  match d.creado_en with
  | some v => some v
  | none => d.creadoen

/-- Embedding of `_leer_creado_en` (`worker.py` lines 113-119): the creation
datetime of the document, defaulting to `utcnow()` when the document is
absent or the field holds no datetime. -/
def leer_creado_en (ahora : Time) (doc : Option Entrada) : Time :=
  match doc with
  | none => ahora
  | some d =>
    match creadoCampo d with
    | some (.dt t) => t
    | _ => ahora

/-! ## Queue state transitions (`worker.py`) -/

/-- The filter `{"registro": r}`. -/
def regFiltro (r : String) : Entrada → Bool := fun e => e.registro == r

/-- The update applied by `marcarcompletado` to the matched entry. -/
def ponerCompletado (ahora : Time) (e : Entrada) : Entrada :=
  { e with estado := "completado", completadoen := some ahora }

/-- Embedding of `marcarcompletado` (`worker.py` lines 142-143). -/
def marcarcompletado (ahora : Time) (p : Entrada → Bool) (q : List Entrada) :
    List Entrada :=
  updateOne p (ponerCompletado ahora) q

/-- The update applied by `marcarerror` to the matched entry. -/
def ponerError (ahora : Time) (msg : String) (e : Entrada) : Entrada :=
  { e with
    estado := "error", erroren := some ahora, mensajeerror := some msg,
    error_en := some ahora, mensaje_error := some msg }

/-- Embedding of `marcarerror` (`worker.py` lines 146-152); the message is
truncated to 800 characters. -/
def marcarerror (ahora : Time) (p : Entrada → Bool) (mensaje : String)
    (q : List Entrada) : List Entrada :=
  updateOne p (ponerError ahora (pyTake mensaje 800)) q

/-- The update applied on the `no_disponible` branch of
`marcar_diferido_o_no_disponible`. -/
def ponerNoDisponible (ahora : Time) (msg : String) (e : Entrada) : Entrada :=
  { e with
    estado := "no_disponible", no_disponible_en := some ahora,
    erroren := some ahora, mensajeerror := some msg,
    error_en := some ahora, mensaje_error := some msg }

/-- The update applied on the `diferido` branch of
`marcar_diferido_o_no_disponible`. -/
def ponerDiferido (ahora : Time) (nextRun : Time) (msg : String) (e : Entrada) : Entrada :=
  { e with
    estado := "diferido", next_run_at := some nextRun,
    diferido_en := some ahora, erroren := some ahora,
    mensajeerror := some msg, error_en := some ahora, mensaje_error := some msg }

/-- Embedding of `marcar_diferido_o_no_disponible` (`worker.py` lines
155-200): read the creation time of the first matching entry, and either
retire the entry (`no_disponible`) once it is at least
`NO_DISPONIBLE_DIAS` old, or defer it to `ahora + DIFERIDO_MINUTOS`. -/
def marcar_diferido_o_no_disponible (cfg : Config) (ahora : Time)
    (p : Entrada → Bool) (mensaje : String) (q : List Entrada) : List Entrada :=
  let msg := pyTake mensaje 800
  let doc := findOne p q
  let creado := leer_creado_en ahora doc
  -- `(ahora - creado).total_seconds() / 86400.0 >= NO_DISPONIBLE_DIAS`,
  -- scaled to seconds
  if ahora - creado ≥ cfg.NO_DISPONIBLE_DIAS * 86400 then
    updateOne p (ponerNoDisponible ahora msg) q
  else
    updateOne p (ponerDiferido ahora (ahora + cfg.DIFERIDO_MINUTOS * 60) msg) q

/-- The stale-lock filter of `liberarlocksstale`: `estado == "procesando"`
and `tomadoen < ahora - LOCKSTALEMIN` minutes (an absent `tomadoen` does not
match a `$lt` comparison). -/
def lockStale (cfg : Config) (ahora : Time) (e : Entrada) : Bool :=
  e.estado == "procesando" &&
    match e.tomadoen with
    | some t => decide (t < ahora - cfg.LOCKSTALEMIN * 60)
    | none => false

/-- Embedding of `liberarlocksstale` (`worker.py` lines 203-210): returns
the updated queue, the `modified_count` that the function prints, and the
value the Python function returns — it has no `return` statement, so that
value is `None`. -/
def liberarlocksstale (cfg : Config) (ahora : Time) (q : List Entrada) :
    List Entrada × Nat × Option Nat :=
  let q2 := updateMany (lockStale cfg ahora)
    (fun e => { e with estado := "pendiente", liberadoen := some ahora }) q
  (q2, q.countP (fun e => lockStale cfg ahora e), none)

/-! ## Atomic claim (`tomarsiguientecola`, `worker.py` lines 122-139) -/

/-- Eligibility filter of the claim: `estado == "pendiente"`, or
`estado == "diferido"` with `next_run_at <= ahora` (an absent `next_run_at`
does not match `$lte`). -/
def elegible (ahora : Time) (e : Entrada) : Bool :=
  e.estado == "pendiente" ||
    (e.estado == "diferido" &&
      match e.next_run_at with
      | some t => decide (t ≤ ahora)
      | none => false)

/-- Sort key of `sort=[("next_run_at", 1), ("creadoen", 1)]`: a missing
field sorts before every present value, and a non-datetime `creadoen`
(unreachable for seeded entries) sorts before the datetimes. -/
def ordenKey (e : Entrada) : (Nat × Int) × (Nat × Int) :=
  ((match e.next_run_at with
    | none => (0, 0)
    | some t => (1, t)),
   (match e.creadoen with
    | none => (0, 0)
    | some .other => (1, 0)
    | some (.dt t) => (2, t)))

/-- Lexicographic order on the flattened sort key. -/
def ordenProp (a b : (Nat × Int) × (Nat × Int)) : Prop :=
  a.1.1 < b.1.1 ∨ (a.1.1 = b.1.1 ∧
    (a.1.2 < b.1.2 ∨ (a.1.2 = b.1.2 ∧
      (a.2.1 < b.2.1 ∨ (a.2.1 = b.2.1 ∧ a.2.2 ≤ b.2.2)))))

instance (a b : (Nat × Int) × (Nat × Int)) : Decidable (ordenProp a b) := by
  unfold ordenProp; infer_instance

/-- Index and value of the first (in natural order) minimal eligible entry
under the sort order, i.e. the document `find_one_and_update` claims. -/
def idxMin (ahora : Time) : List Entrada → Option (Nat × Entrada)
  | [] => none
  | e :: rest =>
    let r := (idxMin ahora rest).map fun p => (p.1 + 1, p.2)
    if elegible ahora e then
      match r with
      | none => some (0, e)
      | some (i, b) =>
        if ordenProp (ordenKey e) (ordenKey b) then some (0, e) else some (i, b)
    else r

/-- The `$set`/`$inc` update of the claim: `estado = "procesando"`,
`tomadoen = ahora`, `intentos += 1`. -/
def aplicarClaim (ahora : Time) (e : Entrada) : Entrada :=
  { e with
    estado := "procesando", tomadoen := some ahora,
    intentos := e.intentos + 1 }

/-- Embedding of `tomarsiguientecola` (`worker.py` lines 122-139): the
post-image of the claimed entry (ReturnDocument.AFTER) and the queue after
the atomic update. -/
def tomarsiguientecola (ahora : Time) (q : List Entrada) :
    Option Entrada × List Entrada :=
  match idxMin ahora q with
  | none => (none, q)
  | some (i, e) => (some (aplicarClaim ahora e), q.set i (aplicarClaim ahora e))

/-! ## The legacy claim and retry endpoint (`main.py`) -/

/-- Index and value of the first entry with `estado == "pendiente"` (the
document `main.py`'s unsorted `find_one_and_update` claims). -/
def idxPendiente : List Entrada → Option (Nat × Entrada)
  | [] => none
  | e :: rest =>
    if e.estado == "pendiente" then some (0, e)
    else (idxPendiente rest).map fun p => (p.1 + 1, p.2)

/-- The update of `main.py`'s claim: `estado = "procesando"`,
`tomado_en = ahora`, `intentos += 1`. -/
def aplicarClaimMain (ahora : Time) (e : Entrada) : Entrada :=
  { e with
    estado := "procesando", tomado_en := some ahora,
    intentos := e.intentos + 1 }

/-- Embedding of `tomar_siguiente_de_cola` (`main.py` lines 230-238): the
filter is only `{"estado": "pendiente"}` and there is no sort. -/
def tomar_siguiente_de_cola (ahora : Time) (q : List Entrada) :
    Option Entrada × List Entrada :=
  match idxPendiente q with
  | none => (none, q)
  | some (i, e) =>
    (some (aplicarClaimMain ahora e), q.set i (aplicarClaimMain ahora e))

/-- The update applied by `reintentar_errores` to each found document. -/
def ponerReintento (ahora : Time) (e : Entrada) : Entrada :=
  { e with estado := "pendiente", reintentado_en := some ahora }

/-- Embedding of `reintentar_errores` (`main.py` lines 261-270): find the
documents with `estado == "error"` (a cursor limit of `limit or 0`, where 0
means no limit), set each back to `pendiente` by `_id`, and return the
count. -/
def reintentar_errores (ahora : Time) (limit : Option Nat) (q : List Entrada) :
    List Entrada × Nat :=
  let lim := limit.getD 0
  let docs := q.filter fun e => e.estado == "error"
  let docs := if lim == 0 then docs else docs.take lim
  let q2 := docs.foldl
    (fun acc d => updateOne (fun e => e.id == d.id) (ponerReintento ahora) acc) q
  (q2, docs.length)

/-- Embedding of the `POST /reintentar-errores` endpoint (`main.py` lines
435-440): runs `reintentar_errores` and answers with the count and the
echoed limit. -/
def endpoint_reintentar_errores (ahora : Time) (limit : Option Nat)
    (q : List Entrada) : List Entrada × Nat × Option Nat :=
  let r := reintentar_errores ahora limit q
  (r.1, r.2, limit)

/-! ## Subject facet extraction -/

/-- Whether a list element is a string (`isinstance(x, str)`). -/
def esStr : MatItem → Bool
  | .s _ => true
  | .d _ _ => false

/-- Whether a list element is an object (`isinstance(x, dict)`). -/
def esDict : MatItem → Bool
  | .s _ => false
  | .d _ _ => true

/-- The string carried by a string list element. -/
def strVal : MatItem → String
  | .s x => x
  | .d _ _ => ""

/-- Python `x.get("descripcion") or x.get("clave") or na` for an object
list element. -/
def dictVal (na : String) : MatItem → String
  | .s _ => na
  | .d descripcion clave => pyOr descripcion (pyOr clave na)

/-- Python falsiness of a subject value (`if not materia`): the empty
string and the empty list are falsy; objects and other values here are
truthy. -/
def esFalsy : Materia → Bool
  | .str s => s == ""
  | .lista xs => xs.isEmpty
  | .obj _ _ => false
  | .otro => false

/-- Python `data.get("materias") or data.get("materia")`: the `materias`
field when it is truthy, else the `materia` field. -/
def campoMateria (d : TesisData) : Option Materia :=
  match d.materias with
  | some m => if esFalsy m then d.materia else some m
  | none => d.materia

/-- The shared body of `extraer_materia` (`main.py` lines 65-91) and
`extraermateriadata` (`worker.py` lines 219-231); the two differ only in
the fallback literal `na` (`"N/A"` in `main.py`, `"NA"` in `worker.py`). -/
def extraerMateriaCon (na : String) (d : TesisData) : String :=
  match campoMateria d with
  | none => na
  | some m =>
    if esFalsy m then na
    else
      match m with
      | .str s => s
      | .lista xs =>
        if xs.all esStr then String.intercalate ", " (xs.map strVal)
        else if xs.all esDict then String.intercalate ", " (xs.map (dictVal na))
        else na
      | .obj descripcion clave => pyOr descripcion (pyOr clave na)
      | .otro => na

/-- Embedding of `extraer_materia` (`main.py` lines 65-91). -/
def extraer_materia (d : TesisData) : String := extraerMateriaCon "N/A" d

/-- Embedding of `extraermateriadata` (`worker.py` lines 219-231). -/
def extraermateriadata (d : TesisData) : String := extraerMateriaCon "NA" d

/-! ## Primary processor (`procesartesisdoc`, `worker.py` lines 358-456) -/

/-- Embedding of `_decidir_vectorizar` (`worker.py` lines 243-248). -/
def decidir_vectorizar (cfg : Config) (anio : Option Int) : Bool :=
  if !cfg.VECTORRANGO then true
  else
    match anio with
    | none => cfg.VECTOR_ANIO_DESCONOCIDO
    | some a => decide (cfg.VECTORANIO_MIN ≤ a ∧ a ≤ cfg.VECTORANIO_MAX)

/-- The embedding prompt of `procesartesisdoc` (`worker.py` lines 410-424). -/
def armarPromptTesis (registroid : String) (data : TesisData) (rubro texto : String)
    (anio : Option Int) (mes tipotesis : Option String) : String :=
  String.intercalate "\n"
    ["SCJN/SJF",
     "Registro: " ++ registroid,
     "Año: " ++ pyReprInt anio,
     "Mes: " ++ pyReprStrOpt mes,
     "TipoTesis: " ++ pyReprStrOpt tipotesis,
     "Época: " ++ data.epoca.getD "N/A",
     "Instancia: " ++ data.instancia.getD "N/A",
     "Materias: " ++ extraermateriadata data,
     "Rubro: " ++ rubro,
     "",
     texto]

/-- The `out` document of `procesartesisdoc` (`worker.py` lines 430-452). -/
def armarArtefacto (ahora : Time) (registroid : String) (data : TesisData)
    (rubro texto : String) (anio : Option Int)
    (mes tipotesis notapublica localizacion : Option String)
    (vector : Option Vec) : Artefacto :=
  { registro := registroid, idTesis := data.idTesis, rubro := rubro,
    texto := texto, epoca := data.epoca.getD "N/A",
    instancia := data.instancia.getD "N/A", organoJuris := data.organoJuris,
    fuente := data.fuente.getD "Repositorio Bicentenario", tesis := data.tesis,
    tipoTesis := tipotesis, anio := anio, mes := mes,
    notaPublica := notapublica, localizacion := localizacion,
    precedentes := data.precedentes, huellaDigital := data.huellaDigital,
    materia := extraermateriadata data, vectorbusqueda := vector,
    vectorbusqueda_ok := pyVecTruthy vector, procesado := true,
    actualizadoen := ahora }

/-- Mongo `update_one({"registro": r}, {"$set": out}, upsert=True)` on the
artifact collection: every field of the first matching document is
overwritten by `out`, or `out` is inserted when no document matches. -/
def upsertArtefacto (r : String) (out : Artefacto) : List Artefacto → List Artefacto
  | [] => [out]
  | a :: rest =>
    if a.registro == r then out :: rest else a :: upsertArtefacto r out rest

/-- The mutable store visible to the primary processor. -/
structure Almacen where
  colatesis : List Entrada
  acervo : List Artefacto
deriving DecidableEq, Repr

/-- A 200/non-200 HTTP response: the status, the result of `resp.json()`
when consulted (`none` when decoding raises), and the text of the decoding
exception. -/
structure Resp where
  status : Nat
  datos : Option TesisData
  jsonMsg : String
deriving DecidableEq, Repr

/-- The triple returned by `pedirtesisconreintentos` (`worker.py` lines
251-280): the last response (if any), the error description, and whether
the retry budget was exhausted. Upstream behaviour is external, so the
processor is parametrised over this outcome. -/
structure FetchOutcome where
  resp : Option Resp
  err : Option String
  agotado : Bool
deriving DecidableEq, Repr

/-- The artifact dedup filter of `procesartesisdoc` step 1:
`{"registro": registroid, "procesado": True}`. -/
def dedupTesis (registroid : String) (a : Artefacto) : Bool :=
  a.registro == registroid && a.procesado

/-- Embedding of `procesartesisdoc` (`worker.py` lines 358-456). The
embedding service is the deterministic oracle `vect` and the upstream
fetch outcome is `fo`; the function returns the `(ok, scjn_transient)`
pair and the updated store. -/
def procesartesisdoc (cfg : Config) (vect : String → Option Vec)
    (fo : FetchOutcome) (ahora : Time) (st : Almacen) (doccola : Entrada) :
    (Bool × Bool) × Almacen :=
  let registroid := (pyStrip doccola.registro)
  if registroid == "" then
    let q2 := marcarerror ahora (fun e => e.id == doccola.id) "Falta registro" st.colatesis
    ((true, false), { st with colatesis := q2 })
  else if (findOne (dedupTesis registroid) st.acervo).isSome then
    ((true, false), { st with colatesis := marcarcompletado ahora (regFiltro registroid) st.colatesis })
  else
    match fo.resp with
    | none =>
      let q2 := marcar_diferido_o_no_disponible cfg ahora (regFiltro registroid) (pyOr fo.err "Sin respuesta") st.colatesis
      ((false, true), { st with colatesis := q2 })
    | some resp =>
      if resp.status != 200 then
        if resp.status == 404 || resp.status == 410 then
          let q1 := marcarerror ahora (regFiltro registroid) (pyOr fo.err ("HTTP " ++ toString resp.status)) st.colatesis
          let q2 := marcarcompletado ahora (regFiltro registroid) q1
          ((true, false), { st with colatesis := q2 })
        else if fo.agotado && RETRYSTATUSCODES.contains resp.status then
          let q2 := marcar_diferido_o_no_disponible cfg ahora (regFiltro registroid) (pyOr fo.err ("HTTP " ++ toString resp.status)) st.colatesis
          ((false, true), { st with colatesis := q2 })
        else
          let q2 := marcarerror ahora (regFiltro registroid) (pyOr fo.err ("HTTP " ++ toString resp.status)) st.colatesis
          ((true, false), { st with colatesis := q2 })
      else
        match resp.datos with
        | none =>
          let q2 := marcarerror ahora (regFiltro registroid) ("JSON inválido: " ++ resp.jsonMsg) st.colatesis
          ((false, false), { st with colatesis := q2 })
        | some data =>
          let rubro := (pyStrip (data.rubro.getD ""))
          let texto := (pyStrip (data.texto.getD ""))
          if rubro == "" || texto == "" then
            let q1 := marcarerror ahora (regFiltro registroid) "Sin rubro o texto" st.colatesis
            let q2 := marcarcompletado ahora (regFiltro registroid) q1
            ((true, false), { st with colatesis := q2 })
          else
            let anio := to_int_or_none data.anio
            let mes := strOpcional data.mes
            let tipotesis := strOpcional data.tipoTesis
            let notapublica := strOpcional data.notaPublica
            let localizacion := strOpcional data.localizacion
            let prompt := armarPromptTesis registroid data rubro texto anio mes tipotesis
            let vector := if decidir_vectorizar cfg anio then vect prompt else none
            if decidir_vectorizar cfg anio && !(pyVecTruthy vector) then
              let q2 := marcarerror ahora (regFiltro registroid) "Error al vectorizar" st.colatesis
              ((false, false), { st with colatesis := q2 })
            else
              let out := armarArtefacto ahora registroid data rubro texto anio mes tipotesis notapublica localizacion vector
              ((true, false),
               { colatesis := marcarcompletado ahora (regFiltro registroid) st.colatesis,
                 acervo := upsertArtefacto registroid out st.acervo })

/-! ## Secondary processor (`procesartfjadoc`, `worker.py` lines 462-516) -/

/-- The mutable store visible to the secondary processor. -/
structure AlmacenTfja where
  colatfja : List Entrada
  sources : List ArtefactoTfja
deriving DecidableEq, Repr

/-- Python truthiness of `doccola.get("docid")`: `None` and the empty
string are falsy. -/
def docidTruthy (x : Option String) : Option String :=
  match x with
  | some s => if s == "" then none else some s
  | none => none

/-- The artifact dedup filter of `procesartfjadoc`:
`{"docid": docid, "procesado": True}`. -/
def dedupTfja (docid : String) (a : ArtefactoTfja) : Bool :=
  a.docid == docid && a.procesado

/-- The docid filter on the secondary queue. -/
def docidFiltro (docid : String) : Entrada → Bool := fun e => e.docid == some docid

/-- Mongo `update_one({"docid": d}, {"$set": out}, upsert=True)` on the
secondary artifact collection. -/
def upsertArtefactoTfja (d : String) (out : ArtefactoTfja) :
    List ArtefactoTfja → List ArtefactoTfja
  | [] => [out]
  | a :: rest =>
    if a.docid == d then out :: rest else a :: upsertArtefactoTfja d out rest

/-- The embedding prompt of `procesartfjadoc` (`worker.py` lines 483-493). -/
def armarPromptTfja (epoca anio mes rubro texto : String) : String :=
  String.intercalate "\n"
    ["TFJA",
     "Época: " ++ epoca,
     "Año: " ++ anio,
     "Mes: " ++ mes,
     "Rubro: " ++ rubro,
     "",
     texto]

/-- Embedding of `procesartfjadoc` (`worker.py` lines 462-516). -/
def procesartfjadoc (vect : String → Option Vec) (ahora : Time)
    (st : AlmacenTfja) (doccola : Entrada) : Bool × AlmacenTfja :=
  match docidTruthy doccola.docid with
  | none =>
    let q2 := marcarerror ahora (fun e => e.id == doccola.id) "Falta docid" st.colatfja
    (true, { st with colatfja := q2 })
  | some docid =>
    if (findOne (dedupTfja docid) st.sources).isSome then
      (true, { st with colatfja := marcarcompletado ahora (docidFiltro docid) st.colatfja })
    else
      let rubro := (pyStrip (doccola.rubro.getD ""))
      let texto := (pyStrip (doccola.texto.getD ""))
      if texto == "" then
        let q1 := marcarerror ahora (docidFiltro docid) "Sin texto" st.colatfja
        let q2 := marcarcompletado ahora (docidFiltro docid) q1
        (true, { st with colatfja := q2 })
      else
        let epoca := doccola.epoca.getD "N/A"
        let anio := doccola.anio.getD "N/A"
        let mes := doccola.mes.getD "N/A"
        let prompt := armarPromptTfja epoca anio mes rubro texto
        let vector := vect prompt
        if !(pyVecTruthy vector) then
          let q2 := marcarerror ahora (docidFiltro docid) "Error al vectorizar" st.colatfja
          (false, { st with colatfja := q2 })
        else
          let out : ArtefactoTfja :=
            { docid := docid, tipo := doccola.tipo.getD "TFJA", epoca := epoca,
              anio := anio, mes := mes, rubro := rubro, texto := texto,
              sourcefile := doccola.sourcefile, sourcepath := doccola.sourcepath,
              vectorbusqueda := vector, procesado := true, actualizadoen := ahora }
          (true,
           { colatfja := marcarcompletado ahora (docidFiltro docid) st.colatfja,
             sources := upsertArtefactoTfja docid out st.sources })

/-! ## Scheduler circuit breaker (`workerloop`, `worker.py` lines 558-603) -/

/-- One scheduler iteration's dispatch, as seen by the consecutive-error
counter: a primary (`tesis`) dispatch with the processor's `(ok, transient)`
result, an empty primary claim, a secondary (`tfja`) dispatch, or an empty
secondary claim. -/
inductive Despacho where
  | tesis (ok : Bool) (transient : Bool)
  | tesisVacia
  | tfja (ok : Bool)
  | tfjaVacia
deriving DecidableEq, Repr

/-- One iteration of the counter logic of `workerloop` (`worker.py` lines
575-589): the new value of `erroresscjnconsecutivos` and the pause slept
(`ESPERAPAUSASCJN` seconds) when the breaker trips. -/
def pasoErrores (cfg : Config) (c : Nat) (d : Despacho) : Nat × Option Int :=
  match d with
  | .tesis ok transient =>
    let c1 := if transient && !ok then c + 1 else if ok then 0 else c
    if c1 ≥ cfg.MAXERRORESSCJN then (0, some cfg.ESPERAPAUSASCJN) else (c1, none)
  | _ => (c, none)

/-- The successive counter values along a run of the scheduler loop. -/
def trazaContador (cfg : Config) (c : Nat) : List Despacho → List Nat
  | [] => []
  | d :: ds =>
    let c2 := (pasoErrores cfg c d).1
    c2 :: trazaContador cfg c2 ds

/-! ## Lemmas about the generic collection operations -/

theorem updateOne_of_findOne_none {α : Type} (p : α → Bool) (f : α → α) :
    ∀ q : List α, findOne p q = none → updateOne p f q = q := by
  intro q
  induction q with
  | nil => intro; rfl
  | cons a rest ih =>
    intro h
    by_cases hp : p a
    · simp [findOne, hp] at h
    · simp only [findOne, hp] at h
      simp [updateOne, hp, ih h]

theorem updateOne_updateOne {α : Type} (p : α → Bool) (f g : α → α)
    (hg : ∀ a, p a = true → p (g a) = true) :
    ∀ q : List α, updateOne p f (updateOne p g q) = updateOne p (fun a => f (g a)) q := by
  intro q
  induction q with
  | nil => rfl
  | cons a rest ih =>
    by_cases hp : p a
    · simp [updateOne, hp, hg a hp]
    · simp [updateOne, hp, ih]

theorem updateOne_ext {α : Type} (p : α → Bool) (f g : α → α)
    (h : ∀ a, p a = true → f a = g a) :
    ∀ q : List α, updateOne p f q = updateOne p g q := by
  intro q
  induction q with
  | nil => rfl
  | cons a rest ih =>
    by_cases hp : p a
    · simp [updateOne, hp, h a hp]
    · simp [updateOne, hp, ih]

theorem findOne_updateOne {α : Type} (p : α → Bool) (f : α → α)
    (hp : ∀ a, p a = true → p (f a) = true) :
    ∀ q : List α, findOne p (updateOne p f q) = (findOne p q).map f := by
  intro q
  induction q with
  | nil => rfl
  | cons a rest ih =>
    by_cases h : p a
    · simp [updateOne, findOne, h, hp a h]
    · simp [updateOne, findOne, h, ih]

theorem findOne_upsertArtefacto (r : String) (out : Artefacto)
    (hr : out.registro = r) (hp : out.procesado = true) :
    ∀ q : List Artefacto, findOne (dedupTesis r) (upsertArtefacto r out q) = some out := by
  intro q
  induction q with
  | nil => simp [upsertArtefacto, findOne, dedupTesis, hr, hp]
  | cons a rest ih =>
    by_cases h : a.registro == r
    · simp [upsertArtefacto, h, findOne, dedupTesis, hr, hp]
    · simp only [upsertArtefacto, h, if_false, Bool.false_eq_true]
      simp only [findOne, dedupTesis, h, Bool.false_and, if_false]
      exact ih

/-! ## Lemmas about the claim order and `idxMin` -/

theorem ordenProp_refl (a : (Nat × Int) × (Nat × Int)) : ordenProp a a := by
  unfold ordenProp; omega

theorem ordenProp_total (a b : (Nat × Int) × (Nat × Int)) :
    ordenProp a b ∨ ordenProp b a := by
  unfold ordenProp; omega

theorem ordenProp_trans {a b c : (Nat × Int) × (Nat × Int)}
    (h1 : ordenProp a b) (h2 : ordenProp b c) : ordenProp a c := by
  unfold ordenProp at h1 h2 ⊢; omega

theorem idxMin_mem (ahora : Time) :
    ∀ (q : List Entrada) (i : Nat) (e : Entrada), idxMin ahora q = some (i, e) →
      q.get? i = some e ∧ elegible ahora e = true := by
  intro q
  induction q with
  | nil => intro i e h; simp [idxMin] at h
  | cons a rest ih =>
    intro i e h
    by_cases ha : elegible ahora a
    · rcases hr : idxMin ahora rest with _ | ⟨j, b⟩
      · simp [idxMin, ha, hr] at h
        obtain ⟨hi, he⟩ := h
        subst hi; subst he
        exact ⟨rfl, ha⟩
      · by_cases hord : ordenProp (ordenKey a) (ordenKey b)
        · simp [idxMin, ha, hr, hord] at h
          obtain ⟨hi, he⟩ := h
          subst hi; subst he
          exact ⟨rfl, ha⟩
        · simp [idxMin, ha, hr, hord] at h
          obtain ⟨hi, he⟩ := h
          subst hi; subst he
          obtain ⟨h1, h2⟩ := ih j b hr
          exact ⟨h1, h2⟩
    · simp only [idxMin, Bool.not_eq_true] at h
      rw [if_neg (by simp [ha])] at h
      rcases hr : idxMin ahora rest with _ | ⟨j, b⟩
      · rw [hr] at h; simp at h
      · rw [hr] at h; simp at h
        obtain ⟨hi, he⟩ := h
        subst hi; subst he
        obtain ⟨h1, h2⟩ := ih j b hr
        exact ⟨h1, h2⟩

theorem idxMin_none (ahora : Time) :
    ∀ q : List Entrada, idxMin ahora q = none →
      ∀ e ∈ q, elegible ahora e = false := by
  intro q
  induction q with
  | nil => intro _ e he; simp at he
  | cons a rest ih =>
    intro h e he
    by_cases ha : elegible ahora a
    · rcases hr : idxMin ahora rest with _ | ⟨j, b⟩
      · simp [idxMin, ha, hr] at h
      · by_cases hord : ordenProp (ordenKey a) (ordenKey b)
        · simp [idxMin, ha, hr, hord] at h
        · simp [idxMin, ha, hr, hord] at h
    · simp only [idxMin, Bool.not_eq_true] at h
      rw [if_neg (by simp [ha])] at h
      rcases hr : idxMin ahora rest with _ | ⟨j, b⟩
      · rcases List.mem_cons.mp he with he | he
        · subst he; simp [ha]
        · exact ih hr e he
      · rw [hr] at h; simp at h

theorem idxMin_min (ahora : Time) :
    ∀ (q : List Entrada) (i : Nat) (e : Entrada), idxMin ahora q = some (i, e) →
      ∀ f ∈ q, elegible ahora f = true →
        ordenProp (ordenKey e) (ordenKey f) := by
  intro q
  induction q with
  | nil => intro i e h; simp [idxMin] at h
  | cons a rest ih =>
    intro i e h f hf hef
    by_cases ha : elegible ahora a
    · rcases hr : idxMin ahora rest with _ | ⟨j, b⟩
      · simp [idxMin, ha, hr] at h
        obtain ⟨hi, he⟩ := h
        subst he
        rcases List.mem_cons.mp hf with hf | hf
        · subst hf; exact ordenProp_refl _
        · exact absurd hef (by simp [idxMin_none ahora rest hr f hf])
      · by_cases hord : ordenProp (ordenKey a) (ordenKey b)
        · simp [idxMin, ha, hr, hord] at h
          obtain ⟨hi, he⟩ := h
          subst he
          rcases List.mem_cons.mp hf with hf | hf
          · subst hf; exact ordenProp_refl _
          · exact ordenProp_trans hord (ih j b hr f hf hef)
        · simp [idxMin, ha, hr, hord] at h
          obtain ⟨hi, he⟩ := h
          subst he
          rcases List.mem_cons.mp hf with hf | hf
          · rw [hf]
            rcases ordenProp_total (ordenKey a) (ordenKey b) with h1 | h1
            · exact absurd h1 hord
            · exact h1
          · exact ih j b hr f hf hef
    · simp only [idxMin, Bool.not_eq_true] at h
      rw [if_neg (by simp [ha])] at h
      rcases hr : idxMin ahora rest with _ | ⟨j, b⟩
      · rw [hr] at h; simp at h
      · rw [hr] at h; simp at h
        obtain ⟨hi, he⟩ := h
        subst he
        rcases List.mem_cons.mp hf with hf | hf
        · subst hf; simp [ha] at hef
        · exact ih j b hr f hf hef

theorem idxPendiente_mem :
    ∀ (q : List Entrada) (i : Nat) (e : Entrada), idxPendiente q = some (i, e) →
      q.get? i = some e ∧ e.estado = "pendiente" ∧
        ∀ j f, j < i → q.get? j = some f → f.estado ≠ "pendiente" := by
  intro q
  induction q with
  | nil => intro i e h; simp [idxPendiente] at h
  | cons a rest ih =>
    intro i e h
    by_cases ha : a.estado = "pendiente"
    · simp [idxPendiente, ha] at h
      obtain ⟨hi, he⟩ := h
      subst hi; subst he
      exact ⟨rfl, ha, by intro j f hj; omega⟩
    · simp only [idxPendiente] at h
      rw [if_neg (by simp [ha])] at h
      rcases hr : idxPendiente rest with _ | ⟨j, b⟩
      · rw [hr] at h; simp at h
      · rw [hr] at h; simp at h
        obtain ⟨hi, he⟩ := h
        subst he
        subst hi
        obtain ⟨h1, h2, h3⟩ := ih j b hr
        refine ⟨by rw [List.get?_cons_succ]; exact h1, h2, ?_⟩
        intro k f hk hgf
        rcases k with _ | k
        · rw [List.get?_cons_zero] at hgf
          injection hgf with h4
          rw [← h4]
          exact ha
        · rw [List.get?_cons_succ] at hgf
          exact h3 k f (by omega) hgf

theorem idxPendiente_none :
    ∀ q : List Entrada, idxPendiente q = none →
      ∀ e ∈ q, e.estado ≠ "pendiente" := by
  intro q
  induction q with
  | nil => intro _ e he; simp at he
  | cons a rest ih =>
    intro h e he
    by_cases ha : a.estado = "pendiente"
    · simp [idxPendiente, ha] at h
    · simp only [idxPendiente] at h
      rw [if_neg (by simp [ha])] at h
      rcases hr : idxPendiente rest with _ | ⟨j, b⟩
      · rcases List.mem_cons.mp he with he | he
        · subst he; exact ha
        · exact ih hr e he
      · rw [hr] at h; simp at h

/-! ## Claim C1 -/

/-- A deferred entry whose `next_run_at` has already passed. -/
def eCex1 : Entrada :=
  { entradaBase with
    id := 1, registro := "200", estado := "diferido", next_run_at := some 0 }

/-- Claim C1, counterexample: `main.py`'s `tomar_siguiente_de_cola` is one
of the claim's two cited `claim_next` implementations, yet on a queue whose
single entry is `deferred` with `next_run_at ≤ now` it returns `none` and
modifies nothing, although the claim requires that entry to be selected. -/
theorem C1_contraejemplo :
    elegible 10 eCex1 = true ∧
    (tomar_siguiente_de_cola 10 [eCex1]).1 = none ∧
    (tomar_siguiente_de_cola 10 [eCex1]).2 = [eCex1] := by
  decide

/-- Claim C1 (amended): the worker's `tomarsiguientecola` satisfies the
claim in full — it selects an entry that is `pendiente`, or `diferido` with
`next_run_at ≤ now`, minimal by (`next_run_at`, `creadoen`) with absent
fields sorting first, sets `estado = "procesando"` and `tomadoen = now`,
increments `intentos` by exactly 1, returns the post-image, and when no
entry is eligible returns `none` leaving the queue unchanged; `main.py`'s
`tomar_siguiente_de_cola` performs the same update and returns the same
post-image but selects only the first entry in natural order whose state is
`pendiente`, never a `diferido` one. -/
theorem C1_claim_next_enmendado (ahora : Time) (q : List Entrada) :
    ((tomarsiguientecola ahora q).1 = none →
      (tomarsiguientecola ahora q).2 = q ∧ ∀ e ∈ q, elegible ahora e = false) ∧
    (∀ e2, (tomarsiguientecola ahora q).1 = some e2 →
      ∃ i e, q.get? i = some e ∧ elegible ahora e = true ∧
        e2 = aplicarClaim ahora e ∧ e2.estado = "procesando" ∧
        e2.tomadoen = some ahora ∧ e2.intentos = e.intentos + 1 ∧
        (tomarsiguientecola ahora q).2 = q.set i e2 ∧
        ∀ f ∈ q, elegible ahora f = true → ordenProp (ordenKey e) (ordenKey f)) ∧
    ((tomar_siguiente_de_cola ahora q).1 = none →
      (tomar_siguiente_de_cola ahora q).2 = q ∧ ∀ e ∈ q, e.estado ≠ "pendiente") ∧
    (∀ e2, (tomar_siguiente_de_cola ahora q).1 = some e2 →
      ∃ i e, q.get? i = some e ∧ e.estado = "pendiente" ∧
        e2 = aplicarClaimMain ahora e ∧ e2.estado = "procesando" ∧
        e2.tomado_en = some ahora ∧ e2.intentos = e.intentos + 1 ∧
        (tomar_siguiente_de_cola ahora q).2 = q.set i e2 ∧
        ∀ j f, j < i → q.get? j = some f → f.estado ≠ "pendiente") := by
  refine ⟨?_, ?_, ?_, ?_⟩
  · intro h
    rcases hidx : idxMin ahora q with _ | ⟨i, e⟩
    · exact ⟨by simp [tomarsiguientecola, hidx], idxMin_none ahora q hidx⟩
    · simp [tomarsiguientecola, hidx] at h
  · intro e2 h
    rcases hidx : idxMin ahora q with _ | ⟨i, e⟩
    · simp [tomarsiguientecola, hidx] at h
    · simp only [tomarsiguientecola, hidx, Option.some.injEq] at h
      obtain ⟨h1, h2⟩ := idxMin_mem ahora q i e hidx
      subst h
      exact ⟨i, e, h1, h2, rfl, rfl, rfl, rfl,
        by simp [tomarsiguientecola, hidx], idxMin_min ahora q i e hidx⟩
  · intro h
    rcases hidx : idxPendiente q with _ | ⟨i, e⟩
    · exact ⟨by simp [tomar_siguiente_de_cola, hidx], idxPendiente_none q hidx⟩
    · simp [tomar_siguiente_de_cola, hidx] at h
  · intro e2 h
    rcases hidx : idxPendiente q with _ | ⟨i, e⟩
    · simp [tomar_siguiente_de_cola, hidx] at h
    · simp only [tomar_siguiente_de_cola, hidx, Option.some.injEq] at h
      obtain ⟨h1, h2, h3⟩ := idxPendiente_mem q i e hidx
      subst h
      exact ⟨i, e, h1, h2, rfl, rfl, rfl, rfl,
        by simp [tomar_siguiente_de_cola, hidx], h3⟩

/-- A pending entry used to exercise the amended C1 theorem. -/
def eW1 : Entrada :=
  { entradaBase with
    id := 4, registro := "100", estado := "pendiente", creadoen := some (.dt 50) }

/-- Claim C1, witness: the amended theorem applied to a one-entry pending
queue at time 7. -/
theorem C1_testigo :
    (tomarsiguientecola 7 [eW1]).1 = some (aplicarClaim 7 eW1) ∧
    (∃ i e, [eW1].get? i = some e ∧ elegible 7 e = true ∧
      aplicarClaim 7 eW1 = aplicarClaim 7 e ∧
      (aplicarClaim 7 eW1).estado = "procesando" ∧
      (aplicarClaim 7 eW1).tomadoen = some 7 ∧
      (aplicarClaim 7 eW1).intentos = e.intentos + 1 ∧
      (tomarsiguientecola 7 [eW1]).2 = [eW1].set i (aplicarClaim 7 eW1) ∧
      ∀ f ∈ [eW1], elegible 7 f = true →
        ordenProp (ordenKey e) (ordenKey f)) :=
  ⟨by decide, (C1_claim_next_enmendado 7 [eW1]).2.1 (aplicarClaim 7 eW1) (by decide)⟩

/-! ## Claim C2 -/

/-- Claim C2: `marcar_diferido_o_no_disponible` on an entry whose creation
field holds the datetime `c` retires the entry to `no_disponible` when
`now - c` is at least `NO_DISPONIBLE_DIAS` days, and otherwise defers it
with `next_run_at = now + DIFERIDO_MINUTOS` minutes; in both cases the
message, truncated to 800 characters, is recorded on the entry. -/
theorem C2_marcar_diferido (cfg : Config) (ahora : Time) (r mensaje : String)
    (q : List Entrada) (d : Entrada) (c : Time)
    (hfind : findOne (regFiltro r) q = some d)
    (hcreado : creadoCampo d = some (.dt c)) :
    (ahora - c ≥ cfg.NO_DISPONIBLE_DIAS * 86400 →
      findOne (regFiltro r)
          (marcar_diferido_o_no_disponible cfg ahora (regFiltro r) mensaje q) =
        some (ponerNoDisponible ahora (pyTake mensaje 800) d) ∧
      (ponerNoDisponible ahora (pyTake mensaje 800) d).estado = "no_disponible" ∧
      (ponerNoDisponible ahora (pyTake mensaje 800) d).mensajeerror =
        some (pyTake mensaje 800)) ∧
    (¬ahora - c ≥ cfg.NO_DISPONIBLE_DIAS * 86400 →
      findOne (regFiltro r)
          (marcar_diferido_o_no_disponible cfg ahora (regFiltro r) mensaje q) =
        some (ponerDiferido ahora (ahora + cfg.DIFERIDO_MINUTOS * 60)
          (pyTake mensaje 800) d) ∧
      (ponerDiferido ahora (ahora + cfg.DIFERIDO_MINUTOS * 60)
          (pyTake mensaje 800) d).estado = "diferido" ∧
      (ponerDiferido ahora (ahora + cfg.DIFERIDO_MINUTOS * 60)
          (pyTake mensaje 800) d).next_run_at =
        some (ahora + cfg.DIFERIDO_MINUTOS * 60) ∧
      (ponerDiferido ahora (ahora + cfg.DIFERIDO_MINUTOS * 60)
          (pyTake mensaje 800) d).mensajeerror = some (pyTake mensaje 800)) := by
  have hleer : leer_creado_en ahora (findOne (regFiltro r) q) = c := by
    rw [hfind]; simp [leer_creado_en, hcreado]
  constructor
  · intro hcond
    refine ⟨?_, rfl, rfl⟩
    simp only [marcar_diferido_o_no_disponible]
    rw [hleer, if_pos hcond]
    rw [findOne_updateOne (regFiltro r) (ponerNoDisponible ahora (pyTake mensaje 800))
      (fun a ha => ha) q, hfind]
    rfl
  · intro hcond
    refine ⟨?_, rfl, rfl, rfl⟩
    simp only [marcar_diferido_o_no_disponible]
    rw [hleer, if_neg hcond]
    rw [findOne_updateOne (regFiltro r)
      (ponerDiferido ahora (ahora + cfg.DIFERIDO_MINUTOS * 60) (pyTake mensaje 800))
      (fun a ha => ha) q, hfind]
    rfl

/-- A processing entry created at time 0 with a `main.py`-style
`creado_en` field. -/
def dW2 : Entrada :=
  { entradaBase with
    id := 5, registro := "100", estado := "procesando", creado_en := some (.dt 0) }

/-- Claim C2, witness: at time 100 an entry created at time 0 is younger
than the 3-day default budget, so it is deferred for 60 minutes with the
message recorded. -/
theorem C2_testigo :
    ¬(100 : Int) - 0 ≥ cfgDefecto.NO_DISPONIBLE_DIAS * 86400 ∧
    (findOne (regFiltro "100")
        (marcar_diferido_o_no_disponible cfgDefecto 100 (regFiltro "100") "boom" [dW2]) =
      some (ponerDiferido 100 (100 + cfgDefecto.DIFERIDO_MINUTOS * 60)
        (pyTake "boom" 800) dW2) ∧
    (ponerDiferido 100 (100 + cfgDefecto.DIFERIDO_MINUTOS * 60)
        (pyTake "boom" 800) dW2).estado = "diferido" ∧
    (ponerDiferido 100 (100 + cfgDefecto.DIFERIDO_MINUTOS * 60)
        (pyTake "boom" 800) dW2).next_run_at =
      some (100 + cfgDefecto.DIFERIDO_MINUTOS * 60) ∧
    (ponerDiferido 100 (100 + cfgDefecto.DIFERIDO_MINUTOS * 60)
        (pyTake "boom" 800) dW2).mensajeerror = some (pyTake "boom" 800)) :=
  ⟨by decide,
   (C2_marcar_diferido cfgDefecto 100 "100" "boom" [dW2] dW2 0
     (by decide) (by decide)).2 (by decide)⟩

/-! ## Claim C10 -/

/-- Claim C10: when the matched entry's creation fields hold no datetime,
`_leer_creado_en` defaults the creation time to `now`, so the computed age
is zero and (whenever the unavailability budget is positive, as in the
default of 3 days) the entry is always deferred, never retired to
`no_disponible`. -/
theorem C10_creado_ausente (cfg : Config) (ahora : Time) (r mensaje : String)
    (q : List Entrada) (d : Entrada)
    (hfind : findOne (regFiltro r) q = some d)
    (hnodt : ∀ t, creadoCampo d ≠ some (.dt t))
    (hpos : 0 < cfg.NO_DISPONIBLE_DIAS) :
    marcar_diferido_o_no_disponible cfg ahora (regFiltro r) mensaje q =
      updateOne (regFiltro r)
        (ponerDiferido ahora (ahora + cfg.DIFERIDO_MINUTOS * 60) (pyTake mensaje 800)) q ∧
    findOne (regFiltro r)
        (marcar_diferido_o_no_disponible cfg ahora (regFiltro r) mensaje q) =
      some (ponerDiferido ahora (ahora + cfg.DIFERIDO_MINUTOS * 60)
        (pyTake mensaje 800) d) ∧
    (ponerDiferido ahora (ahora + cfg.DIFERIDO_MINUTOS * 60)
        (pyTake mensaje 800) d).estado = "diferido" := by
  have hleer : leer_creado_en ahora (findOne (regFiltro r) q) = ahora := by
    rw [hfind]
    rcases hc : creadoCampo d with _ | v
    · simp [leer_creado_en, hc]
    · rcases v with t | _
      · exact absurd hc (hnodt t)
      · simp [leer_creado_en, hc]
  have hcond : ¬ahora - ahora ≥ cfg.NO_DISPONIBLE_DIAS * 86400 := by
    intro hge; linarith
  have hmain : marcar_diferido_o_no_disponible cfg ahora (regFiltro r) mensaje q =
      updateOne (regFiltro r)
        (ponerDiferido ahora (ahora + cfg.DIFERIDO_MINUTOS * 60) (pyTake mensaje 800)) q := by
    simp only [marcar_diferido_o_no_disponible]
    rw [hleer, if_neg hcond]
  refine ⟨hmain, ?_, rfl⟩
  rw [hmain, findOne_updateOne (regFiltro r)
    (ponerDiferido ahora (ahora + cfg.DIFERIDO_MINUTOS * 60) (pyTake mensaje 800))
    (fun a ha => ha) q, hfind]
  rfl

/-- An entry whose `creado_en` holds a non-datetime value and whose
`creadoen` is absent. -/
def dW10 : Entrada :=
  { entradaBase with
    id := 6, registro := "300", estado := "procesando", creado_en := some .other }

/-- Claim C10, witness: at time 10^9 (far beyond any budget measured from
0) the entry with a non-datetime creation field is still deferred. -/
theorem C10_testigo :
    findOne (regFiltro "300")
        (marcar_diferido_o_no_disponible cfgDefecto 1000000000 (regFiltro "300")
          "HTTP 503" [dW10]) =
      some (ponerDiferido 1000000000 (1000000000 + cfgDefecto.DIFERIDO_MINUTOS * 60)
        (pyTake "HTTP 503" 800) dW10) ∧
    (ponerDiferido 1000000000 (1000000000 + cfgDefecto.DIFERIDO_MINUTOS * 60)
        (pyTake "HTTP 503" 800) dW10).estado = "diferido" :=
  (C10_creado_ausente cfgDefecto 1000000000 "300" "HTTP 503" [dW10] dW10
    (by decide) (by intro t; simp [creadoCampo, dW10, entradaBase]) (by decide)).2

/-! ## Claim C6 -/

/-- The update applied by `liberarlocksstale` to each stale entry. -/
def ponerLiberado (ahora : Time) (e : Entrada) : Entrada :=
  { e with estado := "pendiente", liberadoen := some ahora }

/-- Claim C6 (amended): `liberarlocksstale` sets every entry that is
`procesando` with `tomadoen` older than `now - LOCKSTALEMIN` minutes back
to `pendiente`, leaves every other entry unchanged, and computes the count
reclaimed — but only prints it: the Python function has no `return`
statement, so its return value is `None`, not the count. -/
theorem C6_reap_enmendado (cfg : Config) (ahora : Time) (q : List Entrada) :
    (liberarlocksstale cfg ahora q).1.length = q.length ∧
    (∀ i e, q.get? i = some e → lockStale cfg ahora e = true →
      (liberarlocksstale cfg ahora q).1.get? i = some (ponerLiberado ahora e)) ∧
    (∀ i e, q.get? i = some e → lockStale cfg ahora e = false →
      (liberarlocksstale cfg ahora q).1.get? i = some e) ∧
    (liberarlocksstale cfg ahora q).2.1 = q.countP (lockStale cfg ahora) ∧
    (liberarlocksstale cfg ahora q).2.2 = none := by
  refine ⟨by simp [liberarlocksstale, updateMany], ?_, ?_, rfl, rfl⟩
  · intro i e hi he
    simp only [liberarlocksstale, updateMany]
    rw [List.get?_map, hi]
    simp [he, ponerLiberado]
  · intro i e hi he
    simp only [liberarlocksstale, updateMany]
    rw [List.get?_map, hi]
    simp [he]

/-- A stale processing entry: claimed at time 100, examined at 100000. -/
def eC6 : Entrada :=
  { entradaBase with
    id := 7, registro := "400", estado := "procesando", tomadoen := some 100 }

/-- Claim C6, counterexample: one entry is reclaimed (the count is 1 and
the entry goes back to `pendiente`), yet the function's return value is
`None` rather than the count, so the claim that the call returns the
number of entries reclaimed is false. -/
theorem C6_contraejemplo :
    (liberarlocksstale cfgDefecto 100000 [eC6]).2.1 = 1 ∧
    (liberarlocksstale cfgDefecto 100000 [eC6]).1.map (fun e => e.estado) =
      ["pendiente"] ∧
    (liberarlocksstale cfgDefecto 100000 [eC6]).2.2 ≠
      some (liberarlocksstale cfgDefecto 100000 [eC6]).2.1 := by
  decide

/-- Claim C6, witness: the amended theorem applied to a two-entry queue in
which only the first entry is stale. -/
theorem C6_testigo :
    (liberarlocksstale cfgDefecto 100000 [eC6, eW1]).1.get? 0 =
      some (ponerLiberado 100000 eC6) ∧
    (liberarlocksstale cfgDefecto 100000 [eC6, eW1]).1.get? 1 = some eW1 ∧
    (liberarlocksstale cfgDefecto 100000 [eC6, eW1]).2.2 = none :=
  ⟨(C6_reap_enmendado cfgDefecto 100000 [eC6, eW1]).2.1 0 eC6 (by decide) (by decide),
   (C6_reap_enmendado cfgDefecto 100000 [eC6, eW1]).2.2.1 1 eW1 (by decide) (by decide),
   (C6_reap_enmendado cfgDefecto 100000 [eC6, eW1]).2.2.2.2⟩

/-! ## Claim C9 -/

theorem map_id_sin_match (k : Nat) (upd : Entrada → Entrada) :
    ∀ q : List Entrada, (∀ e ∈ q, (e.id == k) = false) →
      q.map (fun e => if e.id == k then upd e else e) = q := by
  intro q
  induction q with
  | nil => intro _; rfl
  | cons a rest ih =>
    intro h
    simp only [List.map_cons]
    rw [if_neg (by simp [h a (List.mem_cons_self a rest)]),
      ih (fun e he => h e (List.mem_cons_of_mem a he))]

theorem updateOne_id_map (ahora : Time) (k : Nat) :
    ∀ q : List Entrada, (q.map (fun e => e.id)).Nodup →
      updateOne (fun e => e.id == k) (ponerReintento ahora) q =
        q.map (fun e => if e.id == k then ponerReintento ahora e else e) := by
  intro q
  induction q with
  | nil => intro _; rfl
  | cons a rest ih =>
    intro hnd
    simp only [List.map_cons, List.nodup_cons] at hnd
    obtain ⟨ha, hrest⟩ := hnd
    by_cases h : (a.id == k) = true
    · simp only [updateOne, h, if_true, List.map_cons]
      rw [map_id_sin_match k (ponerReintento ahora) rest]
      intro e he
      have hak : a.id = k := by simpa using h
      by_contra hek
      apply ha
      rw [List.mem_map]
      exact ⟨e, he, by simp at hek; omega⟩
    · simp only [updateOne, h, if_false, List.map_cons, Bool.false_eq_true]
      rw [ih hrest]

theorem map_reintento_compose (ahora : Time) (d : Entrada) (D : List Entrada) :
    ∀ q : List Entrada,
      (q.map (fun e => if e.id == d.id then ponerReintento ahora e else e)).map
        (fun e => if (D.map (fun x => x.id)).contains e.id
          then ponerReintento ahora e else e) =
      q.map (fun e => if ((d :: D).map (fun x => x.id)).contains e.id
        then ponerReintento ahora e else e) := by
  intro q
  induction q with
  | nil => rfl
  | cons a rest ih =>
    simp only [List.map_cons] at ih ⊢
    rw [ih]
    congr 1
    by_cases hb : (a.id == d.id) = true
    · rw [if_pos hb]
      have h2 : ((d.id :: D.map (fun x => x.id)).contains a.id) = true := by
        simp only [List.contains_cons, hb, Bool.true_or]
      rw [if_pos h2]
      rw [show (ponerReintento ahora a).id = a.id from rfl]
      rw [show ponerReintento ahora (ponerReintento ahora a) =
        ponerReintento ahora a from rfl]
      exact ite_self _
    · rw [if_neg hb]
      have h2 : (d.id :: D.map (fun x => x.id)).contains a.id =
          (D.map (fun x => x.id)).contains a.id := by
        simp only [List.contains_cons,
          show (a.id == d.id) = false by simpa using hb, Bool.false_or]
      simp only [h2]

theorem foldl_reintento (ahora : Time) :
    ∀ (D q : List Entrada), (q.map (fun e => e.id)).Nodup →
      D.foldl (fun acc d =>
          updateOne (fun e => e.id == d.id) (ponerReintento ahora) acc) q =
        q.map (fun e =>
          if (D.map (fun x => x.id)).contains e.id then ponerReintento ahora e else e) := by
  intro D
  induction D with
  | nil =>
    intro q _
    simp [List.foldl]
  | cons d D ih =>
    intro q hnd
    simp only [List.foldl_cons]
    rw [updateOne_id_map ahora d.id q hnd]
    have hids : (q.map (fun e => if e.id == d.id then ponerReintento ahora e else e)).map
        (fun e => e.id) = q.map (fun e => e.id) := by
      rw [List.map_map]
      congr 1
      funext e
      simp only [Function.comp_apply]
      by_cases h : (e.id == d.id) = true
      · rw [if_pos h]; rfl
      · rw [if_neg h]
    rw [ih _ (by rw [hids]; exact hnd)]
    exact map_reintento_compose ahora d D q

/-- Claim C9: `POST /retry-errors?limit=N` transitions up to `N`
primary-queue entries from `error` to `pending` and returns the count: the
returned count is `min N (number of error entries)`, hence at most `N`;
the queue afterwards is the original with exactly the first `N` error
entries (by unique `_id`) replaced by their `pendiente` post-image; and
that post-image's state is `pendiente`. -/
theorem C9_retry_errors (ahora : Time) (n : Nat) (q : List Entrada)
    (hn : 1 ≤ n) (hnodup : (q.map (fun e => e.id)).Nodup) :
    (endpoint_reintentar_errores ahora (some n) q).2.1 =
      min n (q.countP (fun e => e.estado == "error")) ∧
    (endpoint_reintentar_errores ahora (some n) q).2.1 ≤ n ∧
    (endpoint_reintentar_errores ahora (some n) q).1 =
      q.map (fun e =>
        if (((q.filter (fun x => x.estado == "error")).take n).map
            (fun x => x.id)).contains e.id
        then ponerReintento ahora e else e) ∧
    (∀ e, (ponerReintento ahora e).estado = "pendiente") := by
  have hlim : (n == 0) = false := by simp; omega
  refine ⟨?_, ?_, ?_, fun e => rfl⟩
  · simp only [endpoint_reintentar_errores, reintentar_errores, Option.getD, hlim,
      Bool.false_eq_true, if_false]
    rw [List.length_take, List.countP_eq_length_filter]
  · simp only [endpoint_reintentar_errores, reintentar_errores, Option.getD, hlim,
      Bool.false_eq_true, if_false]
    rw [List.length_take]
    exact Nat.min_le_left _ _
  · simp only [endpoint_reintentar_errores, reintentar_errores, Option.getD, hlim,
      Bool.false_eq_true, if_false]
    exact foldl_reintento ahora _ q hnodup

/-- Three error entries with distinct ids. -/
def qErr : List Entrada :=
  [{ entradaBase with id := 11, registro := "11", estado := "error" },
   { entradaBase with id := 12, registro := "12", estado := "error" },
   { entradaBase with id := 13, registro := "13", estado := "error" }]

/-- Claim C9, witness: with three error entries and `limit=2`, exactly two
entries are transitioned to `pendiente` and the count 2 is returned. -/
theorem C9_testigo :
    (endpoint_reintentar_errores 5 (some 2) qErr).2.1 =
      min 2 (qErr.countP (fun e => e.estado == "error")) ∧
    (endpoint_reintentar_errores 5 (some 2) qErr).2.1 ≤ 2 ∧
    (endpoint_reintentar_errores 5 (some 2) qErr).1 =
      qErr.map (fun e =>
        if (((qErr.filter (fun x => x.estado == "error")).take 2).map
            (fun x => x.id)).contains e.id
        then ponerReintento 5 e else e) ∧
    (∀ e, (ponerReintento 5 e).estado = "pendiente") :=
  C9_retry_errors 5 2 qErr (by decide) (by decide)

/-! ## Claim C5 -/

theorem pasoErrores_cota (cfg : Config) (c : Nat) (d : Despacho)
    (hc : c ≤ cfg.MAXERRORESSCJN) :
    (pasoErrores cfg c d).1 ≤ cfg.MAXERRORESSCJN := by
  cases d with
  | tesis ok tr =>
    simp only [pasoErrores]
    split_ifs with h1 h2 h3 h4 h5 <;> omega
  | tesisVacia => simpa [pasoErrores] using hc
  | tfja ok => simpa [pasoErrores] using hc
  | tfjaVacia => simpa [pasoErrores] using hc

theorem trazaContador_cota (cfg : Config) :
    ∀ (ds : List Despacho) (c : Nat), c ≤ cfg.MAXERRORESSCJN →
      ∀ x ∈ trazaContador cfg c ds, x ≤ cfg.MAXERRORESSCJN := by
  intro ds
  induction ds with
  | nil => intro c _ x hx; simp [trazaContador] at hx
  | cons d ds ih =>
    intro c hc x hx
    simp only [trazaContador] at hx
    rcases List.mem_cons.mp hx with hx | hx
    · subst hx; exact pasoErrores_cota cfg c d hc
    · exact ih _ (pasoErrores_cota cfg c d hc) x hx

/-- Claim C5: the consecutive-upstream-error counter of `workerloop` is
incremented by exactly 1 on an upstream-transient primary dispatch (when
the breaker does not trip), reset to 0 by a successful primary dispatch,
and when it reaches `MAXERRORESSCJN` the loop sleeps `ESPERAPAUSASCJN`
seconds and resets it to 0; secondary (`tfja`) dispatches and empty claims
never change it, and along any run starting from 0 the counter never
exceeds `MAXERRORESSCJN`. -/
theorem C5_circuit_breaker (cfg : Config) :
    (∀ c ok tr, tr = true → ok = false → c + 1 < cfg.MAXERRORESSCJN →
      pasoErrores cfg c (.tesis ok tr) = (c + 1, none)) ∧
    (∀ c ok tr, tr = true → ok = false → c + 1 ≥ cfg.MAXERRORESSCJN →
      pasoErrores cfg c (.tesis ok tr) = (0, some cfg.ESPERAPAUSASCJN)) ∧
    (∀ c tr, 0 < cfg.MAXERRORESSCJN →
      pasoErrores cfg c (.tesis true tr) = (0, none)) ∧
    (∀ c ok, pasoErrores cfg c (.tfja ok) = (c, none)) ∧
    (∀ c, pasoErrores cfg c .tesisVacia = (c, none)) ∧
    (∀ c, pasoErrores cfg c .tfjaVacia = (c, none)) ∧
    (∀ ds : List Despacho, ∀ x ∈ trazaContador cfg 0 ds,
      x ≤ cfg.MAXERRORESSCJN) := by
  refine ⟨?_, ?_, ?_, fun c ok => rfl, fun c => rfl, fun c => rfl,
    fun ds => trazaContador_cota cfg ds 0 (Nat.zero_le _)⟩
  · intro c ok tr htr hok hlt
    subst htr; subst hok
    simp only [pasoErrores, Bool.not_false, Bool.and_self, if_true]
    rw [if_neg (by omega)]
  · intro c ok tr htr hok hge
    subst htr; subst hok
    simp only [pasoErrores, Bool.not_false, Bool.and_self, if_true]
    rw [if_pos (by omega)]
  · intro c tr hpos
    simp only [pasoErrores, Bool.not_true, Bool.and_false, Bool.false_eq_true,
      if_false, if_true]
    rw [if_neg (by omega)]

/-- Claim C5, witness: with the default configuration (threshold 5, pause
1200 s): a transient failure at counter 0 advances it to 1; a transient
failure at counter 4 trips the breaker (pause 1200 s, counter reset); a
success resets the counter; a secondary dispatch leaves it unchanged. -/
theorem C5_testigo :
    pasoErrores cfgDefecto 0 (.tesis false true) = (1, none) ∧
    pasoErrores cfgDefecto 4 (.tesis false true) =
      (0, some cfgDefecto.ESPERAPAUSASCJN) ∧
    pasoErrores cfgDefecto 3 (.tesis true false) = (0, none) ∧
    pasoErrores cfgDefecto 2 (.tfja true) = (2, none) :=
  ⟨(C5_circuit_breaker cfgDefecto).1 0 false true rfl rfl (by decide),
   (C5_circuit_breaker cfgDefecto).2.1 4 false true rfl rfl (by decide),
   (C5_circuit_breaker cfgDefecto).2.2.1 3 false (by decide),
   (C5_circuit_breaker cfgDefecto).2.2.2.1 2 true⟩

/-! ## Claim C7 -/

/-- An upstream record with every field absent. -/
def tdVacio : TesisData :=
  { rubro := none, texto := none, anio := none, mes := none, tipoTesis := none,
    notaPublica := none, localizacion := none, epoca := none, instancia := none,
    idTesis := none, organoJuris := none, fuente := none, tesis := none,
    precedentes := none, huellaDigital := none, materias := none, materia := none }

/-- Claim C7, counterexample: the worker's subject extraction
(`extraermateriadata`) falls back to the literal `"NA"`, not `"N/A"`, on a
record with no subject field, so the claim that the extraction returns
exactly `"N/A"` is false for one of its two cited implementations. -/
theorem C7_contraejemplo :
    extraermateriadata tdVacio ≠ "N/A" ∧ extraermateriadata tdVacio = "NA" := by
  decide

/-- Claim C7 (amended): both subject extractors decode the four recognized
shapes into a canonical comma-joined string and fall back on missing,
empty, or unrecognized shapes — but `main.py`'s `extraer_materia` falls
back to `"N/A"` while `worker.py`'s `extraermateriadata` (the one used by
the worker pipeline) falls back to `"NA"`. -/
theorem C7_materia_enmendado :
    (∀ d, campoMateria d = none →
      extraer_materia d = "N/A" ∧ extraermateriadata d = "NA") ∧
    (∀ d m, campoMateria d = some m → esFalsy m = true →
      extraer_materia d = "N/A" ∧ extraermateriadata d = "NA") ∧
    (∀ d s, campoMateria d = some (.str s) → s ≠ "" →
      extraer_materia d = s ∧ extraermateriadata d = s) ∧
    (∀ d xs, campoMateria d = some (.lista xs) → xs ≠ [] → xs.all esStr = true →
      extraer_materia d = String.intercalate ", " (xs.map strVal) ∧
      extraermateriadata d = String.intercalate ", " (xs.map strVal)) ∧
    (∀ d dd cc, campoMateria d = some (.obj dd cc) →
      extraer_materia d = pyOr dd (pyOr cc "N/A") ∧
      extraermateriadata d = pyOr dd (pyOr cc "NA")) ∧
    (∀ d xs, campoMateria d = some (.lista xs) → xs.all esStr = false →
      xs.all esDict = true →
      extraer_materia d = String.intercalate ", " (xs.map (dictVal "N/A")) ∧
      extraermateriadata d = String.intercalate ", " (xs.map (dictVal "NA"))) ∧
    (∀ d xs, campoMateria d = some (.lista xs) → xs.all esStr = false →
      xs.all esDict = false →
      extraer_materia d = "N/A" ∧ extraermateriadata d = "NA") ∧
    (∀ d, campoMateria d = some .otro →
      extraer_materia d = "N/A" ∧ extraermateriadata d = "NA") := by
  refine ⟨?_, ?_, ?_, ?_, ?_, ?_, ?_, ?_⟩
  · intro d h
    constructor <;> simp [extraer_materia, extraermateriadata, extraerMateriaCon, h]
  · intro d m h hm
    constructor <;> simp [extraer_materia, extraermateriadata, extraerMateriaCon, h, hm]
  · intro d s h hs
    have hf : esFalsy (Materia.str s) = false := by simp [esFalsy, hs]
    constructor <;>
      simp [extraer_materia, extraermateriadata, extraerMateriaCon, h, hf]
  · intro d xs h hne hall
    have hf : esFalsy (Materia.lista xs) = false := by
      simp [esFalsy, hne]
    constructor <;>
      simp [extraer_materia, extraermateriadata, extraerMateriaCon, h, hf, hall]
  · intro d dd cc h
    constructor <;>
      simp [extraer_materia, extraermateriadata, extraerMateriaCon, h, esFalsy]
  · intro d xs h hstr hdict
    have hne : xs ≠ [] := by
      intro h0; subst h0; simp at hstr
    have hf : esFalsy (Materia.lista xs) = false := by simp [esFalsy, hne]
    constructor <;>
      simp [extraer_materia, extraermateriadata, extraerMateriaCon, h, hf, hstr, hdict]
  · intro d xs h hstr hdict
    have hne : xs ≠ [] := by
      intro h0; subst h0; simp at hstr
    have hf : esFalsy (Materia.lista xs) = false := by simp [esFalsy, hne]
    constructor <;>
      simp [extraer_materia, extraermateriadata, extraerMateriaCon, h, hf, hstr, hdict]
  · intro d h
    constructor <;>
      simp [extraer_materia, extraermateriadata, extraerMateriaCon, h, esFalsy]

/-- An upstream record whose `materias` field is a list of two strings. -/
def tdListas : TesisData :=
  { tdVacio with materias := some (.lista [.s "Fiscal", .s "Laboral"]) }

/-- Claim C7, witness: the amended theorem applied to a list-of-strings
subject field, which both extractors join with a comma. -/
theorem C7_testigo :
    extraer_materia tdListas =
      String.intercalate ", " ([MatItem.s "Fiscal", MatItem.s "Laboral"].map strVal) ∧
    extraermateriadata tdListas =
      String.intercalate ", " ([MatItem.s "Fiscal", MatItem.s "Laboral"].map strVal) :=
  C7_materia_enmendado.2.2.2.1 tdListas [MatItem.s "Fiscal", MatItem.s "Laboral"]
    (by decide) (by decide) (by decide)

/-! ## Idempotence lemmas for the queue transitions -/

theorem marcarerror_idem (t : Time) (p : Entrada → Bool) (msg : String)
    (hp : ∀ a, p a = true → p (ponerError t (pyTake msg 800) a) = true)
    (q : List Entrada) :
    marcarerror t p msg (marcarerror t p msg q) = marcarerror t p msg q :=
  (updateOne_updateOne p (ponerError t (pyTake msg 800)) (ponerError t (pyTake msg 800))
    hp q).trans
    (updateOne_ext p _ (ponerError t (pyTake msg 800)) (fun a _ => rfl) q)

theorem marcarcompletado_idem (t : Time) (p : Entrada → Bool)
    (hp : ∀ a, p a = true → p (ponerCompletado t a) = true)
    (q : List Entrada) :
    marcarcompletado t p (marcarcompletado t p q) = marcarcompletado t p q :=
  (updateOne_updateOne p (ponerCompletado t) (ponerCompletado t) hp q).trans
    (updateOne_ext p _ (ponerCompletado t) (fun a _ => rfl) q)

theorem drenar_idem (t : Time) (p : Entrada → Bool) (msg : String)
    (hpe : ∀ a, p a = true → p (ponerError t (pyTake msg 800) a) = true)
    (hpc : ∀ a, p a = true → p (ponerCompletado t a) = true)
    (q : List Entrada) :
    marcarcompletado t p (marcarerror t p msg
        (marcarcompletado t p (marcarerror t p msg q))) =
      marcarcompletado t p (marcarerror t p msg q) := by
  have h2 : updateOne p (ponerCompletado t)
      (updateOne p (ponerError t (pyTake msg 800)) q) =
      updateOne p (fun a => ponerCompletado t (ponerError t (pyTake msg 800) a)) q :=
    updateOne_updateOne p (ponerCompletado t) (ponerError t (pyTake msg 800)) hpe q
  show updateOne p (ponerCompletado t) (updateOne p (ponerError t (pyTake msg 800))
      (updateOne p (ponerCompletado t) (updateOne p (ponerError t (pyTake msg 800)) q))) =
    updateOne p (ponerCompletado t) (updateOne p (ponerError t (pyTake msg 800)) q)
  calc
    updateOne p (ponerCompletado t) (updateOne p (ponerError t (pyTake msg 800))
        (updateOne p (ponerCompletado t) (updateOne p (ponerError t (pyTake msg 800)) q)))
      = updateOne p (fun a => ponerCompletado t (ponerError t (pyTake msg 800) a))
          (updateOne p (ponerCompletado t)
            (updateOne p (ponerError t (pyTake msg 800)) q)) :=
        updateOne_updateOne p (ponerCompletado t) (ponerError t (pyTake msg 800)) hpe _
    _ = updateOne p (fun a => ponerCompletado t (ponerError t (pyTake msg 800) a))
          (updateOne p (fun a => ponerCompletado t (ponerError t (pyTake msg 800) a)) q) := by
        rw [h2]
    _ = updateOne p (fun a => ponerCompletado t (ponerError t (pyTake msg 800)
          (ponerCompletado t (ponerError t (pyTake msg 800) a)))) q :=
        updateOne_updateOne p _ _ (fun a ha => hpc _ (hpe _ ha)) q
    _ = updateOne p (fun a => ponerCompletado t (ponerError t (pyTake msg 800) a)) q :=
        updateOne_ext p _ _ (fun a _ => rfl) q
    _ = updateOne p (ponerCompletado t)
          (updateOne p (ponerError t (pyTake msg 800)) q) := h2.symm

theorem marcar_dif_idem (cfg : Config) (t : Time) (r msg : String)
    (q : List Entrada) :
    marcar_diferido_o_no_disponible cfg t (regFiltro r) msg
        (marcar_diferido_o_no_disponible cfg t (regFiltro r) msg q) =
      marcar_diferido_o_no_disponible cfg t (regFiltro r) msg q := by
  rcases hf : findOne (regFiltro r) q with _ | d
  · have hq : marcar_diferido_o_no_disponible cfg t (regFiltro r) msg q = q := by
      simp only [marcar_diferido_o_no_disponible]
      split_ifs with h <;> exact updateOne_of_findOne_none _ _ q hf
    rw [hq]
    exact hq
  · by_cases hc : t - leer_creado_en t (some d) ≥ cfg.NO_DISPONIBLE_DIAS * 86400
    · have h1 : marcar_diferido_o_no_disponible cfg t (regFiltro r) msg q =
          updateOne (regFiltro r) (ponerNoDisponible t (pyTake msg 800)) q := by
        simp only [marcar_diferido_o_no_disponible]
        rw [hf, if_pos hc]
      rw [h1]
      have h2 : findOne (regFiltro r)
          (updateOne (regFiltro r) (ponerNoDisponible t (pyTake msg 800)) q) =
          some (ponerNoDisponible t (pyTake msg 800) d) := by
        rw [findOne_updateOne (regFiltro r) (ponerNoDisponible t (pyTake msg 800))
          (fun a ha => ha) q, hf]
        rfl
      have h3 : leer_creado_en t (some (ponerNoDisponible t (pyTake msg 800) d)) =
          leer_creado_en t (some d) := rfl
      simp only [marcar_diferido_o_no_disponible]
      rw [h2, h3, if_pos hc]
      rw [updateOne_updateOne (regFiltro r) (ponerNoDisponible t (pyTake msg 800))
        (ponerNoDisponible t (pyTake msg 800)) (fun a ha => ha) q]
      exact updateOne_ext _ _ _ (fun a _ => rfl) q
    · have h1 : marcar_diferido_o_no_disponible cfg t (regFiltro r) msg q =
          updateOne (regFiltro r)
            (ponerDiferido t (t + cfg.DIFERIDO_MINUTOS * 60) (pyTake msg 800)) q := by
        simp only [marcar_diferido_o_no_disponible]
        rw [hf, if_neg hc]
      rw [h1]
      have h2 : findOne (regFiltro r)
          (updateOne (regFiltro r)
            (ponerDiferido t (t + cfg.DIFERIDO_MINUTOS * 60) (pyTake msg 800)) q) =
          some (ponerDiferido t (t + cfg.DIFERIDO_MINUTOS * 60) (pyTake msg 800) d) := by
        rw [findOne_updateOne (regFiltro r)
          (ponerDiferido t (t + cfg.DIFERIDO_MINUTOS * 60) (pyTake msg 800))
          (fun a ha => ha) q, hf]
        rfl
      have h3 : leer_creado_en t
          (some (ponerDiferido t (t + cfg.DIFERIDO_MINUTOS * 60) (pyTake msg 800) d)) =
          leer_creado_en t (some d) := rfl
      simp only [marcar_diferido_o_no_disponible]
      rw [h2, h3, if_neg hc]
      rw [updateOne_updateOne (regFiltro r)
        (ponerDiferido t (t + cfg.DIFERIDO_MINUTOS * 60) (pyTake msg 800))
        (ponerDiferido t (t + cfg.DIFERIDO_MINUTOS * 60) (pyTake msg 800))
        (fun a ha => ha) q]
      exact updateOne_ext _ _ _ (fun a _ => rfl) q

/-! ## Branch characterizations of `procesartesisdoc` -/

theorem procesar_blanco (cfg : Config) (vect : String → Option Vec)
    (fo : FetchOutcome) (ahora : Time) (st : Almacen) (doccola : Entrada)
    (hreg : ((pyStrip doccola.registro) == "") = true) :
    procesartesisdoc cfg vect fo ahora st doccola =
      ((true, false),
       { st with
         colatesis := marcarerror ahora (fun e => e.id == doccola.id)
           "Falta registro" st.colatesis }) := by
  simp [procesartesisdoc, hreg]

theorem procesar_dedup (cfg : Config) (vect : String → Option Vec)
    (fo : FetchOutcome) (ahora : Time) (st : Almacen) (doccola : Entrada)
    (hreg : ((pyStrip doccola.registro) == "") = false)
    (hded : (findOne (dedupTesis (pyStrip doccola.registro)) st.acervo).isSome = true) :
    procesartesisdoc cfg vect fo ahora st doccola =
      ((true, false),
       { st with
         colatesis :=
           marcarcompletado ahora (regFiltro (pyStrip doccola.registro)) st.colatesis }) := by
  simp [procesartesisdoc, hreg, hded]

theorem procesar_sin_respuesta (cfg : Config) (vect : String → Option Vec)
    (fo : FetchOutcome) (ahora : Time) (st : Almacen) (doccola : Entrada)
    (hreg : ((pyStrip doccola.registro) == "") = false)
    (hded : (findOne (dedupTesis (pyStrip doccola.registro)) st.acervo).isSome = false)
    (hresp : fo.resp = none) :
    procesartesisdoc cfg vect fo ahora st doccola =
      ((false, true),
       { st with
         colatesis :=
           marcar_diferido_o_no_disponible cfg ahora (regFiltro (pyStrip doccola.registro))
             (pyOr fo.err "Sin respuesta") st.colatesis }) := by
  simp [procesartesisdoc, hreg, hded, hresp]

theorem procesar_ausente (cfg : Config) (vect : String → Option Vec)
    (fo : FetchOutcome) (ahora : Time) (st : Almacen) (doccola : Entrada)
    (resp : Resp)
    (hreg : ((pyStrip doccola.registro) == "") = false)
    (hded : (findOne (dedupTesis (pyStrip doccola.registro)) st.acervo).isSome = false)
    (hresp : fo.resp = some resp)
    (h200 : (resp.status != 200) = true)
    (habs : (resp.status == 404 || resp.status == 410) = true) :
    procesartesisdoc cfg vect fo ahora st doccola =
      ((true, false),
       { st with
         colatesis :=
           marcarcompletado ahora (regFiltro (pyStrip doccola.registro))
             (marcarerror ahora (regFiltro (pyStrip doccola.registro))
               (pyOr fo.err ("HTTP " ++ toString resp.status)) st.colatesis) }) := by
  simp [procesartesisdoc, hreg, hded, hresp, h200, habs]

theorem procesar_reintentable (cfg : Config) (vect : String → Option Vec)
    (fo : FetchOutcome) (ahora : Time) (st : Almacen) (doccola : Entrada)
    (resp : Resp)
    (hreg : ((pyStrip doccola.registro) == "") = false)
    (hded : (findOne (dedupTesis (pyStrip doccola.registro)) st.acervo).isSome = false)
    (hresp : fo.resp = some resp)
    (h200 : (resp.status != 200) = true)
    (habs : (resp.status == 404 || resp.status == 410) = false)
    (hret : (fo.agotado && RETRYSTATUSCODES.contains resp.status) = true) :
    procesartesisdoc cfg vect fo ahora st doccola =
      ((false, true),
       { st with
         colatesis :=
           marcar_diferido_o_no_disponible cfg ahora (regFiltro (pyStrip doccola.registro))
             (pyOr fo.err ("HTTP " ++ toString resp.status)) st.colatesis }) := by
  simp [procesartesisdoc, hreg, hded, hresp, h200, habs, hret]
  simpa using hret

theorem procesar_terminal_otro (cfg : Config) (vect : String → Option Vec)
    (fo : FetchOutcome) (ahora : Time) (st : Almacen) (doccola : Entrada)
    (resp : Resp)
    (hreg : ((pyStrip doccola.registro) == "") = false)
    (hded : (findOne (dedupTesis (pyStrip doccola.registro)) st.acervo).isSome = false)
    (hresp : fo.resp = some resp)
    (h200 : (resp.status != 200) = true)
    (habs : (resp.status == 404 || resp.status == 410) = false)
    (hret : (fo.agotado && RETRYSTATUSCODES.contains resp.status) = false) :
    procesartesisdoc cfg vect fo ahora st doccola =
      ((true, false),
       { st with
         colatesis :=
           marcarerror ahora (regFiltro (pyStrip doccola.registro))
             (pyOr fo.err ("HTTP " ++ toString resp.status)) st.colatesis }) := by
  simp [procesartesisdoc, hreg, hded, hresp, h200, habs, hret]
  simpa using hret

/-- The embedding prompt computed by `procesartesisdoc` for a parsed
record. -/
def promptDe (doccola : Entrada) (data : TesisData) : String :=
  armarPromptTesis (pyStrip doccola.registro) data (pyStrip (data.rubro.getD ""))
    (pyStrip (data.texto.getD "")) (to_int_or_none data.anio)
    (strOpcional data.mes) (strOpcional data.tipoTesis)

/-- The vector computed by `procesartesisdoc` for a parsed record. -/
def vectorDe (cfg : Config) (vect : String → Option Vec) (doccola : Entrada)
    (data : TesisData) : Option Vec :=
  if decidir_vectorizar cfg (to_int_or_none data.anio)
  then vect (promptDe doccola data) else none

/-- The artifact written by `procesartesisdoc` for a parsed record. -/
def artefactoDe (cfg : Config) (vect : String → Option Vec) (ahora : Time)
    (doccola : Entrada) (data : TesisData) : Artefacto :=
  armarArtefacto ahora (pyStrip doccola.registro) data (pyStrip (data.rubro.getD ""))
    (pyStrip (data.texto.getD "")) (to_int_or_none data.anio)
    (strOpcional data.mes) (strOpcional data.tipoTesis)
    (strOpcional data.notaPublica) (strOpcional data.localizacion)
    (vectorDe cfg vect doccola data)

theorem procesar_json_invalido (cfg : Config) (vect : String → Option Vec)
    (fo : FetchOutcome) (ahora : Time) (st : Almacen) (doccola : Entrada)
    (resp : Resp)
    (hreg : ((pyStrip doccola.registro) == "") = false)
    (hded : (findOne (dedupTesis (pyStrip doccola.registro)) st.acervo).isSome = false)
    (hresp : fo.resp = some resp)
    (h200 : (resp.status != 200) = false)
    (hdat : resp.datos = none) :
    procesartesisdoc cfg vect fo ahora st doccola =
      ((false, false),
       { st with
         colatesis :=
           marcarerror ahora (regFiltro (pyStrip doccola.registro))
             ("JSON inválido: " ++ resp.jsonMsg) st.colatesis }) := by
  simp [procesartesisdoc, hreg, hded, hresp, h200, hdat]

theorem procesar_sin_rubro (cfg : Config) (vect : String → Option Vec)
    (fo : FetchOutcome) (ahora : Time) (st : Almacen) (doccola : Entrada)
    (resp : Resp) (data : TesisData)
    (hreg : ((pyStrip doccola.registro) == "") = false)
    (hded : (findOne (dedupTesis (pyStrip doccola.registro)) st.acervo).isSome = false)
    (hresp : fo.resp = some resp)
    (h200 : (resp.status != 200) = false)
    (hdat : resp.datos = some data)
    (hblank : (((pyStrip (data.rubro.getD "")) == "") ||
      ((pyStrip (data.texto.getD "")) == "")) = true) :
    procesartesisdoc cfg vect fo ahora st doccola =
      ((true, false),
       { st with
         colatesis :=
           marcarcompletado ahora (regFiltro (pyStrip doccola.registro))
             (marcarerror ahora (regFiltro (pyStrip doccola.registro))
               "Sin rubro o texto" st.colatesis) }) := by
  simp [procesartesisdoc, hreg, hded, hresp, h200, hdat, hblank]

theorem procesar_vector_falla (cfg : Config) (vect : String → Option Vec)
    (fo : FetchOutcome) (ahora : Time) (st : Almacen) (doccola : Entrada)
    (resp : Resp) (data : TesisData)
    (hreg : ((pyStrip doccola.registro) == "") = false)
    (hded : (findOne (dedupTesis (pyStrip doccola.registro)) st.acervo).isSome = false)
    (hresp : fo.resp = some resp)
    (h200 : (resp.status != 200) = false)
    (hdat : resp.datos = some data)
    (hblank : (((pyStrip (data.rubro.getD "")) == "") ||
      ((pyStrip (data.texto.getD "")) == "")) = false)
    (hvec : (decidir_vectorizar cfg (to_int_or_none data.anio) &&
      !(pyVecTruthy (vectorDe cfg vect doccola data))) = true) :
    procesartesisdoc cfg vect fo ahora st doccola =
      ((false, false),
       { st with
         colatesis :=
           marcarerror ahora (regFiltro (pyStrip doccola.registro))
             "Error al vectorizar" st.colatesis }) := by
  simp only [vectorDe, promptDe] at hvec
  simp [procesartesisdoc, hreg, hded, hresp, h200, hdat, hblank, hvec]

theorem procesar_exito (cfg : Config) (vect : String → Option Vec)
    (fo : FetchOutcome) (ahora : Time) (st : Almacen) (doccola : Entrada)
    (resp : Resp) (data : TesisData)
    (hreg : ((pyStrip doccola.registro) == "") = false)
    (hded : (findOne (dedupTesis (pyStrip doccola.registro)) st.acervo).isSome = false)
    (hresp : fo.resp = some resp)
    (h200 : (resp.status != 200) = false)
    (hdat : resp.datos = some data)
    (hblank : (((pyStrip (data.rubro.getD "")) == "") ||
      ((pyStrip (data.texto.getD "")) == "")) = false)
    (hvec : (decidir_vectorizar cfg (to_int_or_none data.anio) &&
      !(pyVecTruthy (vectorDe cfg vect doccola data))) = false) :
    procesartesisdoc cfg vect fo ahora st doccola =
      ((true, false),
       { colatesis :=
           marcarcompletado ahora (regFiltro (pyStrip doccola.registro)) st.colatesis,
         acervo := upsertArtefacto (pyStrip doccola.registro)
           (artefactoDe cfg vect ahora doccola data) st.acervo }) := by
  simp only [vectorDe, promptDe] at hvec
  simp [procesartesisdoc, artefactoDe, vectorDe, promptDe,
    hreg, hded, hresp, h200, hdat, hblank, hvec]

/-! ## Claim C3 -/

/-- A claimed entry whose upstream answers 403 (non-retryable, non-absent). -/
def eC3 : Entrada :=
  { entradaBase with
    id := 8, registro := "500", estado := "procesando", creadoen := some (.dt 0) }

/-- The fetch outcome of a 403 response. -/
def foC3 : FetchOutcome :=
  { resp := some { status := 403, datos := none, jsonMsg := "" },
    err := some "HTTP 403 no-retry", agotado := false }

/-- The store holding only the claimed 403 entry. -/
def stC3 : Almacen := { colatesis := [eC3], acervo := [] }

set_option maxRecDepth 100000 in
/-- Claim C3, counterexample: on a 403 the processor records the error and
returns `(ok := true, transient := false)`, but the entry ends in state
`error` with no completion timestamp — it is never marked `completado`, so
the claimed drain (error AND completed) does not happen. -/
theorem C3_contraejemplo :
    (procesartesisdoc cfgDefecto (fun _ => some [1]) foC3 100 stC3 eC3).1 =
      (true, false) ∧
    ((procesartesisdoc cfgDefecto (fun _ => some [1]) foC3 100 stC3 eC3).2.colatesis.map
      (fun e => (e.estado, e.mensajeerror, e.completadoen))) =
      [("error", some "HTTP 403 no-retry", none)] := by
  decide

/-- Claim C3 (amended): for a claimed primary entry whose fetch returns a
non-200 status that is neither retryable (429/500/502/503/504) nor absent
(404/410), the processor records the error diagnosis on the entry and
returns `(ok := true, transient := false)`; the entry is left in state
`error` — not marked `completado` — and an `error` entry is not eligible
for any future claim, so the item is not retried. -/
theorem C3_terminal_otro_enmendado (cfg : Config) (vect : String → Option Vec)
    (fo : FetchOutcome) (ahora : Time) (st : Almacen) (doccola : Entrada)
    (resp : Resp)
    (hreg : (pyStrip doccola.registro) ≠ "")
    (hded : findOne (dedupTesis (pyStrip doccola.registro)) st.acervo = none)
    (hresp : fo.resp = some resp)
    (hn200 : resp.status ≠ 200)
    (hn404 : resp.status ≠ 404) (hn410 : resp.status ≠ 410)
    (hnret : resp.status ∉ RETRYSTATUSCODES) :
    procesartesisdoc cfg vect fo ahora st doccola =
      ((true, false),
       { st with
         colatesis :=
           marcarerror ahora (regFiltro (pyStrip doccola.registro))
             (pyOr fo.err ("HTTP " ++ toString resp.status)) st.colatesis }) ∧
    (procesartesisdoc cfg vect fo ahora st doccola).2.acervo = st.acervo ∧
    (∀ e, (ponerError ahora
        (pyTake (pyOr fo.err ("HTTP " ++ toString resp.status)) 800) e).estado =
      "error") ∧
    (∀ t e, elegible t (ponerError ahora
        (pyTake (pyOr fo.err ("HTTP " ++ toString resp.status)) 800) e) = false) := by
  have heq := procesar_terminal_otro cfg vect fo ahora st doccola resp
    (by simp [hreg]) (by simp [hded]) hresp (by simp [hn200])
    (by simp [hn404, hn410]) (by simp [hnret])
  refine ⟨heq, by rw [heq], fun e => rfl, fun t e => rfl⟩

/-- Claim C3, witness: the amended theorem applied to the concrete 403
instance. -/
theorem C3_testigo :
    procesartesisdoc cfgDefecto (fun _ => some [1]) foC3 100 stC3 eC3 =
      ((true, false),
       { stC3 with
         colatesis :=
           marcarerror 100 (regFiltro (pyStrip eC3.registro))
             (pyOr foC3.err ("HTTP " ++ toString (403 : Nat))) stC3.colatesis }) ∧
    (procesartesisdoc cfgDefecto (fun _ => some [1]) foC3 100 stC3 eC3).2.acervo =
      stC3.acervo ∧
    (∀ e, (ponerError 100
        (pyTake (pyOr foC3.err ("HTTP " ++ toString (403 : Nat))) 800) e).estado =
      "error") ∧
    (∀ t e, elegible t (ponerError 100
        (pyTake (pyOr foC3.err ("HTTP " ++ toString (403 : Nat))) 800) e) = false) :=
  C3_terminal_otro_enmendado cfgDefecto (fun _ => some [1]) foC3 100 stC3 eC3
    { status := 403, datos := none, jsonMsg := "" }
    (by decide) (by decide) (by decide) (by decide) (by decide) (by decide)
    (by decide)

/-! ## Claim C8 -/

/-- A secondary-queue entry with a body but no title. -/
def eC8 : Entrada :=
  { entradaBase with id := 9, docid := some "d1", texto := some "cuerpo" }

/-- A secondary store holding only that entry and no artifacts. -/
def stC8 : AlmacenTfja := { colatfja := [eC8], sources := [] }

set_option maxRecDepth 100000 in
/-- Claim C8, counterexample: the secondary processor does not validate the
title. On an entry with a missing title and a present body it is not
drained: with a working embedder it completes normally (no error recorded,
artifact written), and with a failing embedder it records an embedding
error — i.e. embedding was attempted despite the missing title. -/
theorem C8_contraejemplo :
    (procesartfjadoc (fun _ => some [1]) 50 stC8 eC8).1 = true ∧
    ((procesartfjadoc (fun _ => some [1]) 50 stC8 eC8).2.colatfja.map
      (fun e => (e.estado, e.mensajeerror))) = [("completado", none)] ∧
    (procesartfjadoc (fun _ => some [1]) 50 stC8 eC8).2.sources ≠ [] ∧
    ((procesartfjadoc (fun _ => none) 50 stC8 eC8).2.colatfja.map
      (fun e => (e.estado, e.mensajeerror))) =
      [("error", some "Error al vectorizar")] := by
  decide

/-- Claim C8 (amended): the secondary processor validates only the body
(`texto`): when the body is empty after trimming it drains the entry
(records the error diagnosis and marks it completed) before any embedding
is attempted (the embedder is never consulted), leaving the artifact
collection unchanged; the title (`rubro`) is not validated. -/
theorem C8_tfja_enmendado (vect : String → Option Vec) (ahora : Time)
    (st : AlmacenTfja) (doccola : Entrada) (docid : String)
    (hdoc : docidTruthy doccola.docid = some docid)
    (hded : findOne (dedupTfja docid) st.sources = none)
    (htexto : (pyStrip (doccola.texto.getD "")) = "") :
    procesartfjadoc vect ahora st doccola =
      (true,
       { st with
         colatfja :=
           marcarcompletado ahora (docidFiltro docid)
             (marcarerror ahora (docidFiltro docid) "Sin texto" st.colatfja) }) ∧
    (procesartfjadoc vect ahora st doccola).2.sources = st.sources := by
  have heq : procesartfjadoc vect ahora st doccola =
      (true,
       { st with
         colatfja :=
           marcarcompletado ahora (docidFiltro docid)
             (marcarerror ahora (docidFiltro docid) "Sin texto" st.colatfja) }) := by
    simp [procesartfjadoc, hdoc, hded, htexto]
  exact ⟨heq, by rw [heq]⟩

/-- A secondary-queue entry whose body is blank after trimming. -/
def eC8b : Entrada :=
  { entradaBase with
    id := 10, docid := some "d2", rubro := some "R", texto := some "   " }

/-- Claim C8, witness: the amended theorem applied to the blank-body entry;
the drain happens for every embedder. -/
theorem C8_testigo :
    procesartfjadoc (fun _ => some [9]) 60 { colatfja := [eC8b], sources := [] } eC8b =
      (true,
       ({ colatfja := marcarcompletado 60 (docidFiltro "d2")
            (marcarerror 60 (docidFiltro "d2") "Sin texto" [eC8b]),
          sources := [] } : AlmacenTfja)) ∧
    (procesartfjadoc (fun _ => some [9]) 60
      { colatfja := [eC8b], sources := [] } eC8b).2.sources = [] :=
  C8_tfja_enmendado (fun _ => some [9]) 60 { colatfja := [eC8b], sources := [] }
    eC8b "d2" (by decide) (by decide) (by decide)

/-! ## Claim C4 -/

/-- Claim C4: processing a primary entry a second time (same upstream
outcome, embedder and clock) changes nothing: the second run returns the
same `(ok, transient)` pair and leaves the store exactly as the first run
left it. In particular, when the artifact keyed by the entry's `registro`
already exists with `procesado = true`, the run marks the entry completed
and returns `(ok := true, transient := false)` for every fetch outcome and
embedder — it touches neither the upstream nor the artifact collection. -/
theorem C4_idempotencia (cfg : Config) (vect : String → Option Vec)
    (fo : FetchOutcome) (ahora : Time) (st : Almacen) (doccola : Entrada) :
    procesartesisdoc cfg vect fo ahora
        (procesartesisdoc cfg vect fo ahora st doccola).2 doccola =
      procesartesisdoc cfg vect fo ahora st doccola ∧
    ((pyStrip doccola.registro == "") = false →
      (findOne (dedupTesis (pyStrip doccola.registro)) st.acervo).isSome = true →
      ∀ (fo2 : FetchOutcome) (vect2 : String → Option Vec),
        procesartesisdoc cfg vect2 fo2 ahora st doccola =
          ((true, false),
           { st with
             colatesis :=
               marcarcompletado ahora (regFiltro (pyStrip doccola.registro))
                 st.colatesis })) := by
  refine ⟨?_, fun hreg hded fo2 vect2 =>
    procesar_dedup cfg vect2 fo2 ahora st doccola hreg hded⟩
  cases hreg : (pyStrip doccola.registro == "") with
  | true =>
    rw [procesar_blanco cfg vect fo ahora st doccola hreg]
    dsimp only
    rw [procesar_blanco cfg vect fo ahora
      { colatesis := marcarerror ahora (fun e => e.id == doccola.id)
          "Falta registro" st.colatesis,
        acervo := st.acervo } doccola hreg]
    dsimp only
    simp only [marcarerror_idem ahora (fun e => e.id == doccola.id)
      "Falta registro" (fun a ha => ha)]
  | false =>
    cases hded : (findOne (dedupTesis (pyStrip doccola.registro)) st.acervo).isSome with
    | true =>
      rw [procesar_dedup cfg vect fo ahora st doccola hreg hded]
      dsimp only
      rw [procesar_dedup cfg vect fo ahora
        { colatesis := marcarcompletado ahora
            (regFiltro (pyStrip doccola.registro)) st.colatesis,
          acervo := st.acervo } doccola hreg hded]
      dsimp only
      simp only [marcarcompletado_idem ahora (regFiltro (pyStrip doccola.registro))
        (fun a ha => ha)]
    | false =>
      rcases hresp : fo.resp with _ | resp
      · rw [procesar_sin_respuesta cfg vect fo ahora st doccola hreg hded hresp]
        dsimp only
        rw [procesar_sin_respuesta cfg vect fo ahora
          { colatesis := marcar_diferido_o_no_disponible cfg ahora
              (regFiltro (pyStrip doccola.registro))
              (pyOr fo.err "Sin respuesta") st.colatesis,
            acervo := st.acervo } doccola hreg hded hresp]
        dsimp only
        simp only [marcar_dif_idem cfg ahora (pyStrip doccola.registro)
          (pyOr fo.err "Sin respuesta")]
      · cases h200 : (resp.status != 200) with
        | true =>
          cases habs : (resp.status == 404 || resp.status == 410) with
          | true =>
            rw [procesar_ausente cfg vect fo ahora st doccola resp hreg hded hresp
              h200 habs]
            dsimp only
            rw [procesar_ausente cfg vect fo ahora
              { colatesis := marcarcompletado ahora
                  (regFiltro (pyStrip doccola.registro))
                  (marcarerror ahora (regFiltro (pyStrip doccola.registro))
                    (pyOr fo.err ("HTTP " ++ toString resp.status)) st.colatesis),
                acervo := st.acervo } doccola resp hreg hded hresp h200 habs]
            dsimp only
            simp only [drenar_idem ahora (regFiltro (pyStrip doccola.registro))
              (pyOr fo.err ("HTTP " ++ toString resp.status))
              (fun a ha => ha) (fun a ha => ha)]
          | false =>
            cases hret : (fo.agotado && RETRYSTATUSCODES.contains resp.status) with
            | true =>
              rw [procesar_reintentable cfg vect fo ahora st doccola resp hreg hded
                hresp h200 habs hret]
              dsimp only
              rw [procesar_reintentable cfg vect fo ahora
                { colatesis := marcar_diferido_o_no_disponible cfg ahora
                    (regFiltro (pyStrip doccola.registro))
                    (pyOr fo.err ("HTTP " ++ toString resp.status)) st.colatesis,
                  acervo := st.acervo } doccola resp hreg hded hresp h200 habs hret]
              dsimp only
              simp only [marcar_dif_idem cfg ahora (pyStrip doccola.registro)
                (pyOr fo.err ("HTTP " ++ toString resp.status))]
            | false =>
              rw [procesar_terminal_otro cfg vect fo ahora st doccola resp hreg hded
                hresp h200 habs hret]
              dsimp only
              rw [procesar_terminal_otro cfg vect fo ahora
                { colatesis := marcarerror ahora
                    (regFiltro (pyStrip doccola.registro))
                    (pyOr fo.err ("HTTP " ++ toString resp.status)) st.colatesis,
                  acervo := st.acervo } doccola resp hreg hded hresp h200 habs hret]
              dsimp only
              simp only [marcarerror_idem ahora (regFiltro (pyStrip doccola.registro))
                (pyOr fo.err ("HTTP " ++ toString resp.status)) (fun a ha => ha)]
        | false =>
          rcases hdat : resp.datos with _ | data
          · rw [procesar_json_invalido cfg vect fo ahora st doccola resp hreg hded
              hresp h200 hdat]
            dsimp only
            rw [procesar_json_invalido cfg vect fo ahora
              { colatesis := marcarerror ahora
                  (regFiltro (pyStrip doccola.registro))
                  ("JSON inválido: " ++ resp.jsonMsg) st.colatesis,
                acervo := st.acervo } doccola resp hreg hded hresp h200 hdat]
            dsimp only
            simp only [marcarerror_idem ahora (regFiltro (pyStrip doccola.registro))
              ("JSON inválido: " ++ resp.jsonMsg) (fun a ha => ha)]
          · cases hblank : ((pyStrip (data.rubro.getD "") == "") ||
                (pyStrip (data.texto.getD "") == "")) with
            | true =>
              rw [procesar_sin_rubro cfg vect fo ahora st doccola resp data hreg hded
                hresp h200 hdat hblank]
              dsimp only
              rw [procesar_sin_rubro cfg vect fo ahora
                { colatesis := marcarcompletado ahora
                    (regFiltro (pyStrip doccola.registro))
                    (marcarerror ahora (regFiltro (pyStrip doccola.registro))
                      "Sin rubro o texto" st.colatesis),
                  acervo := st.acervo } doccola resp data hreg hded hresp h200 hdat
                hblank]
              dsimp only
              simp only [drenar_idem ahora (regFiltro (pyStrip doccola.registro))
                "Sin rubro o texto" (fun a ha => ha) (fun a ha => ha)]
            | false =>
              cases hvec : (decidir_vectorizar cfg (to_int_or_none data.anio) &&
                  !(pyVecTruthy (vectorDe cfg vect doccola data))) with
              | true =>
                rw [procesar_vector_falla cfg vect fo ahora st doccola resp data hreg
                  hded hresp h200 hdat hblank hvec]
                dsimp only
                rw [procesar_vector_falla cfg vect fo ahora
                  { colatesis := marcarerror ahora
                      (regFiltro (pyStrip doccola.registro))
                      "Error al vectorizar" st.colatesis,
                    acervo := st.acervo } doccola resp data hreg hded hresp h200 hdat
                  hblank hvec]
                dsimp only
                simp only [marcarerror_idem ahora (regFiltro (pyStrip doccola.registro))
                  "Error al vectorizar" (fun a ha => ha)]
              | false =>
                rw [procesar_exito cfg vect fo ahora st doccola resp data hreg hded
                  hresp h200 hdat hblank hvec]
                dsimp only
                have hded2 : (findOne (dedupTesis (pyStrip doccola.registro))
                    (upsertArtefacto (pyStrip doccola.registro)
                      (artefactoDe cfg vect ahora doccola data) st.acervo)).isSome =
                    true := by
                  rw [findOne_upsertArtefacto (pyStrip doccola.registro)
                    (artefactoDe cfg vect ahora doccola data) rfl rfl st.acervo]
                  rfl
                rw [procesar_dedup cfg vect fo ahora
                  { colatesis := marcarcompletado ahora
                      (regFiltro (pyStrip doccola.registro)) st.colatesis,
                    acervo := upsertArtefacto (pyStrip doccola.registro)
                      (artefactoDe cfg vect ahora doccola data) st.acervo }
                  doccola hreg hded2]
                dsimp only
                simp only [marcarcompletado_idem ahora
                  (regFiltro (pyStrip doccola.registro)) (fun a ha => ha)]

/-- A pending entry, a 200 response with title and body, and an embedder
returning a one-element vector, for exercising the C4 theorem. -/
def foW4 : FetchOutcome :=
  { resp := some
      { status := 200,
        datos := some { tdVacio with rubro := some "R", texto := some "T" },
        jsonMsg := "" },
    err := none, agotado := false }

/-- A store in which the artifact for registro 100 has already been
written with `procesado = true`. -/
def stW4 : Almacen :=
  { colatesis := [eW1],
    acervo := [artefactoDe cfgDefecto (fun _ => some [7]) 50 eW1
      { tdVacio with rubro := some "R", texto := some "T" }] }

/-- Claim C4, witness: re-running the processor on its own output changes
nothing, and on the store that already holds the processed artifact the
dedup clause fires: the run (here with a failing embedder and a 403 fetch
outcome, neither of which is consulted) just re-marks completion. -/
theorem C4_testigo :
    procesartesisdoc cfgDefecto (fun _ => some [7]) foW4 100
        (procesartesisdoc cfgDefecto (fun _ => some [7]) foW4 100 stW4 eW1).2 eW1 =
      procesartesisdoc cfgDefecto (fun _ => some [7]) foW4 100 stW4 eW1 ∧
    procesartesisdoc cfgDefecto (fun _ => none) foC3 100 stW4 eW1 =
      ((true, false),
       { stW4 with
         colatesis :=
           marcarcompletado 100 (regFiltro (pyStrip eW1.registro))
             stW4.colatesis }) :=
  ⟨(C4_idempotencia cfgDefecto (fun _ => some [7]) foW4 100 stW4 eW1).1,
   (C4_idempotencia cfgDefecto (fun _ => none) foC3 100 stW4 eW1).2
     (by decide) (by decide) foC3 (fun _ => none)⟩

end Juris
